import Mathlib

/-!
Verification development for the property-listing enrichment service.

The definitions below are a shallow embedding of the TypeScript route
handlers under `src/` (extract, stats, stats/confirm, evaluate,
preferences).  Persistent state (Supabase tables) is modelled by an
explicit `DBState` record threaded through each operation; HTTP
responses are modelled by per-route result inductives; the external AI
collaborator and the JSON.parse primitive are parameters of the routes
(the orchestration logic around them is embedded faithfully, the text
of the model output is opaque input).
-/

namespace PropertyMVP

mutual
/-- A JSON value, as produced by `JSON.parse`.  Numbers are modelled as
integers: every numeric field of the schemas involved (scores, minutes,
meters, versions) is an integer.  Arrays and objects carry their own
spine types (`JArr`, `JObj`) so that recursion over a value is
structural. -/
inductive JVal where
  | null
  | bool (b : Bool)
  | num (n : Int)
  | str (s : String)
  | arr (elems : JArr)
  | obj (fields : JObj)
/-- The spine of a JSON array. -/
inductive JArr where
  | nil
  | cons (hd : JVal) (tl : JArr)
/-- The spine of a JSON object. -/
inductive JObj where
  | nil
  | cons (key : String) (val : JVal) (tl : JObj)
end

/-- Build an object spine from a key/value list. -/
def JObj.ofList : List (String × JVal) → JObj
  | [] => .nil
  | (k, v) :: rest => .cons k v (JObj.ofList rest)

/-- Build an array spine from a value list. -/
def JArr.ofList : List JVal → JArr
  | [] => .nil
  | v :: rest => .cons v (JArr.ofList rest)

/-- A JSON object literal. -/
def JVal.objOf (kvs : List (String × JVal)) : JVal := .obj (JObj.ofList kvs)

/-- A JSON array literal. -/
def JVal.arrOf (vs : List JVal) : JVal := .arr (JArr.ofList vs)

/-- First value bound to a key in an object spine. -/
def JObj.findVal? : JObj → String → Option JVal
  | .nil, _ => none
  | .cons k v tl, key => if k == key then some v else JObj.findVal? tl key

/-- JS property access `v[k]` on a parsed value: a lookup on objects,
`undefined` (here `none`) on every other value. -/
def JVal.get? : JVal → String → Option JVal
  | .obj kvs, k => kvs.findVal? k
  | _, _ => none

/-- Collapse a JSON `null` into `none`: this is how the `??` and `?.`
operators of the source treat a property that is present but null. -/
def jopt : Option JVal → Option JVal
  | some .null => none
  | v => v

/-- JS truthiness of a JSON value (`null`, `false`, `0` and `""` are
falsy, everything else truthy). -/
def jsTruthy : JVal → Bool
  | .null => false
  | .bool b => b
  | .num n => n != 0
  | .str s => s != ""
  | .arr _ => true
  | .obj _ => true

/-- JS `typeof v === "object"` for a JSON value (arrays and `null` are
objects in JS). -/
def jsIsObjectType : JVal → Bool
  | .obj _ => true
  | .arr _ => true
  | .null => true
  | _ => false

mutual
/-- JS `String(v)` on a JSON value.  Strings pass through; numbers,
booleans and null print as in JS; arrays join their elements with `,`
(null elements joining as the empty string, as JS does); objects print
as `[object Object]`. -/
def jsToString : JVal → String
  | .str s => s
  | .num n => toString n
  | .bool b => cond b "true" "false"
  | .null => "null"
  | .arr es => String.intercalate "," (jsToStringArr es)
  | .obj _ => "[object Object]"
/-- Element strings of a JS array stringification. -/
def jsToStringArr : JArr → List String
  | .nil => []
  | .cons v vs =>
    (match v with
     | .null => ""
     | w => jsToString w) :: jsToStringArr vs
end

/-- JS string trimming (`String.prototype.trim`), implemented over the
character list so that it evaluates inside the kernel. -/
def jsTrim (s : String) : String :=
  String.mk
    (((s.toList.dropWhile Char.isWhitespace).reverse.dropWhile
        Char.isWhitespace).reverse)

/-- JS `Number(v)` on a JSON value, restricted to the integer world of
the schemas: numbers pass through, booleans become 0/1, null becomes 0,
integer-looking strings parse, and everything Non-numeric (NaN cases,
arrays, objects, fractional strings) is collapsed to 0. -/
def jsToNumber : JVal → Int
  | .num n => n
  | .bool b => cond b 1 0
  | .null => 0
  | .str s => ((jsTrim s).toInt?).getD 0
  | .arr _ => 0
  | .obj _ => 0

/-- The session lifecycle states (`LifecycleStage` union type of the
source). -/
inductive LifecycleStage where
  | CREATED
  | FETCHED_HTML
  | EXTRACTED_BASE
  | AI_PARSED
  | NEEDS_CONFIRMATION
  | CONFIRMED
  | STATS_RUNNING
  | STATS_NEEDS_CONFIRMATION
  | STATS_READY
  | STATS_FAILED
  | EVAL_RUNNING
  | AI_READY
  | EVAL_FAILED
  | VIDEO_REQUESTED
  | VIDEO_READY
deriving DecidableEq, Repr

/-- One `property_sessions` row.  `id` is the primary key. -/
structure Session where
  id : String
  user_id : String
  rightmove_url : String
  rightmove_listing_id : Option String
  status : LifecycleStage
  last_extracted_at : Option String
deriving DecidableEq, Repr

/-- One `usage_counters` row (the video columns are never read or
written by the embedded routes and are omitted). -/
structure UsageCounters where
  extract_used : Nat
  extract_limit : Nat
  stats_used : Nat
  stats_limit : Nat
  evaluate_used : Nat
  evaluate_limit : Nat
deriving DecidableEq, Repr

/-- Modelled from the spec: the `usage_counters` row is "created lazily
(idempotent upsert) on first touch ... with all stages defaulted"; the
concrete column defaults live in the database schema, which is not part
of `src/`.  No claim depends on the default values. -/
def defaultCounters : UsageCounters :=
  { extract_used := 0, extract_limit := 0, stats_used := 0, stats_limit := 0
    evaluate_used := 0, evaluate_limit := 0 }

/-- One `usage_ledger` row, with the columns the routes insert. -/
structure LedgerEntry where
  user_id : String
  action_type : String
  delta : Int
  reason : String
  direction : String
  action : String
  note : String
  amount : Nat
deriving DecidableEq, Repr

/-- The metered actions that have a `checkAndConsumeQuota` copy in the
source (the video action has no route in `src/`). -/
inductive MeteredAction where
  | extract
  | stats
  | evaluate
deriving DecidableEq, Repr

def MeteredAction.name : MeteredAction → String
  | .extract => "extract"
  | .stats => "stats"
  | .evaluate => "evaluate"

/-- The per-route `note` string of the ledger insert. -/
def MeteredAction.noteText : MeteredAction → String
  | .extract => "Extract invoked via /api/extract"
  | .stats => "Stats invoked via /api/stats"
  | .evaluate => "Evaluation invoked via /api/evaluate"

/-- The `<action>_used` column read by the action's quota check. -/
def usedOf : MeteredAction → UsageCounters → Nat
  | .extract, c => c.extract_used
  | .stats, c => c.stats_used
  | .evaluate, c => c.evaluate_used

/-- The `<action>_limit` column read by the action's quota check. -/
def limitOf : MeteredAction → UsageCounters → Nat
  | .extract, c => c.extract_limit
  | .stats, c => c.stats_limit
  | .evaluate, c => c.evaluate_limit

/-- The counter update `{ <action>_used: n }` of the quota consume. -/
def setUsed : MeteredAction → UsageCounters → Nat → UsageCounters
  | .extract, c, n => { c with extract_used := n }
  | .stats, c, n => { c with stats_used := n }
  | .evaluate, c, n => { c with evaluate_used := n }

/-- One `listing_facts_raw` row as written by `writeFactsRaw`
(columns are nullable; `none` is SQL NULL). -/
structure FactsRawRow where
  property_session_id : String
  price : Option JVal
  bedrooms : Option JVal
  bathrooms : Option JVal
  property_type : Option JVal
  tenure : Option JVal
  lease_years_remaining : Option JVal
  postcode : Option JVal
  address : Option JVal
  description : Option JVal
  estate_agent : Option JVal
  ai_confidence : Option JVal
  ai_warnings : Option JVal

/-- One `listing_stats_raw` row as written by the stats route
(`rawPayload`). -/
structure RawStats where
  property_session_id : String
  stats_version : Int
  computed_at : String
  commute_total_minutes : Int
  commute_walk_minutes : Int
  commute_mode : String
  commute_confidence : String
  commute_notes : String
  nearest_station_distance_m : Int
  nearest_station_name : String
  supermarket_distance_m : Int
  supermarket_name : String
  gym_distance_m : Int
  gym_name : String
  school_distance_m : Int
  school_name : String
  religious_building_distance_m : Int
  religious_building_name : String
  green_space_distance_m : Int
  green_space_name : String
  safety_score : Int
  cleanliness_score : Int
  transport_convenience_score : Int
  service_charge_estimate_annual : Int
  ground_rent_estimate_annual : Int
  running_costs_confidence : String
  running_costs_notes : String
  required_confidence : Option JVal
  required_source : Option JVal
  optional_confidence : Option JVal
  optional_source : Option JVal

/-- One `listing_stats_confirmed` row, the shape written both by the
auto-confirm gate of the stats route and by the manual confirm route. -/
structure ConfirmedStats where
  property_session_id : String
  commute_total_minutes : Int
  commute_walk_minutes : Int
  commute_mode : String
  nearest_station_distance_m : Int
  nearest_station_name : String
  supermarket_distance_m : Int
  supermarket_name : String
  green_space_distance_m : Int
  green_space_name : String
  safety_score : Int
  required_confidence : Option JVal
  required_source : Option JVal
  notes : String
  confirmed_by_user : Bool
  confirmed_at : String

/-- One `listing_evaluation_raw` row (`evalPayload` of the evaluate
route). -/
structure EvalRaw where
  property_session_id : String
  rank_score : Option JVal
  overall_score : Option JVal
  executive_summary : String
  estate_agent_snippet : String
  per_preference : JVal
  warnings : Option JVal
  assumptions : Option JVal
  model_info : JVal
  evaluated_at : String

/-- One `preferences` row, restricted to the columns that
`checkMinimumPreferences` reads (the free-text `notes_*` columns and the
remaining nullable columns are never consulted by the embedded routes).
`none` models SQL NULL. -/
structure Preferences where
  budget_max : Option Int
  budget_flex : Option Int
  min_bedrooms : Option Int
  property_type_rank : Option (List String)
  property_type_reject_below_index : Option Int
  tenure_rank : Option (List String)
  tenure_reject_below_index : Option Int
  work_postcode : Option String
  transport_mode : Option String
  car_owner : Option Bool
  bike_owner : Option Bool
  transport_convenience_weight : Option Int
  religion_required : Option Bool
  school_priority : Option Bool
  gym_priority : Option Bool
  has_children : Option Bool
  quiet_area_priority : Option Bool
  green_space_priority : Option Bool
  safety_weight : Option Int
  cleanliness_weight : Option Int
  storage_required : Option Bool
  affordability_weight : Option Int
deriving DecidableEq, Repr

/-- The whole persistent store.  Artifact tables are keyed maps
(`property_session_id` key except preferences/counters keyed by user).
`listing_facts_confirmed` is consulted only for existence by the
embedded routes, so it is modelled as a presence predicate. -/
structure DBState where
  sessions : List Session
  counters : String → Option UsageCounters
  ledger : List LedgerEntry
  factsRaw : String → Option FactsRawRow
  factsConfirmed : String → Bool
  statsRaw : String → Option RawStats
  statsConfirmed : String → Option ConfirmedStats
  evalRaw : String → Option EvalRaw
  preferences : String → Option Preferences

/-- Pointwise map update, the effect of an upsert keyed on `k`. -/
def fupd {α : Type} (f : String → Option α) (k : String) (v : α) :
    String → Option α :=
  fun x => if x = k then some v else f x

/-- The result shape of `checkAndConsumeQuota`. -/
structure QuotaResult where
  ok : Bool
  used : Nat
  limit : Nat
deriving DecidableEq, Repr

/-- `ensureUsageRow`: idempotent upsert of the counters row
(`onConflict: "user_id"`, so an existing row is left untouched). -/
def ensureUsageRow (userId : String) (db : DBState) : DBState :=
  match db.counters userId with
  | some _ => db
  | none => { db with counters := fupd db.counters userId defaultCounters }

/-- The ledger row each quota consume inserts. -/
def usageLedgerEntry (userId : String) (a : MeteredAction) : LedgerEntry :=
  { user_id := userId, action_type := a.name, delta := -1, reason := "usage"
    direction := "debit", action := a.name, note := a.noteText, amount := 1 }

/-- `checkAndConsumeQuota`: the source repeats this function once per
route (extract / stats / evaluate) with the action's columns and note;
it is embedded once, parameterized by the action.  Reads `(used,
limit)`; at or over the limit it returns `ok:false` without writing;
under the limit it writes `used+1` back and appends one usage ledger
row. -/
def checkAndConsumeQuota (userId : String) (a : MeteredAction)
    (db : DBState) : QuotaResult × DBState :=
  let db1 := ensureUsageRow userId db
  let row := (db1.counters userId).getD defaultCounters
  let used := usedOf a row
  let lim := limitOf a row
  if used ≥ lim then
    ({ ok := false, used := used, limit := lim }, db1)
  else
    let db2 := { db1 with
      counters := fupd db1.counters userId (setUsed a row (used + 1)) }
    let db3 := { db2 with ledger := db2.ledger ++ [usageLedgerEntry userId a] }
    ({ ok := true, used := used + 1, limit := lim }, db3)

/-- The row filter of the guarded status update:
`.eq("id", sessionId).eq("user_id", userId).in("status", from)`. -/
def sessionMatches (sessionId userId : String)
    (fromSet : List LifecycleStage) (s : Session) : Bool :=
  decide (s.id = sessionId ∧ s.user_id = userId ∧ s.status ∈ fromSet)

/-- `setStatusGuarded`: conditional update of the session status,
returning whether a row was matched (`!!data` on the
`.select("id").maybeSingle()` result; `id` is the primary key, so at
most one row can match). -/
def setStatusGuarded (db : DBState) (sessionId userId : String)
    (fromSet : List LifecycleStage) (tgt : LifecycleStage) :
    Bool × DBState :=
  (db.sessions.any (sessionMatches sessionId userId fromSet),
   { db with sessions := db.sessions.map (fun s =>
       if sessionMatches sessionId userId fromSet s then
         { s with status := tgt } else s) })

/-- The `.select(...).eq("id", sessionId).single()` session read. -/
def findSession (db : DBState) (sessionId : String) : Option Session :=
  db.sessions.find? (fun s => s.id == sessionId)

/-- The plain `.update({status}).eq("id", sessionId)` write used by the
stats and evaluate routes for reverts and terminal transitions. -/
def updateStatusById (db : DBState) (sessionId : String)
    (st : LifecycleStage) : DBState :=
  { db with sessions := db.sessions.map (fun s =>
      if s.id == sessionId then { s with status := st } else s) }

/-- `updateSessionStatus` of the extract route: sets the status and
stamps `last_extracted_at` with the current time. -/
def updateSessionStatus (db : DBState) (sessionId : String)
    (st : LifecycleStage) (now : String) : DBState :=
  { db with sessions := db.sessions.map (fun s =>
      if s.id == sessionId then
        { s with status := st, last_extracted_at := some now } else s) }

/-- The suffix after the first occurrence of `pat`, scanning left to
right (regex leftmost-match). -/
def afterFirst (pat : List Char) : List Char → Option (List Char)
  | [] => none
  | c :: rest =>
    if pat.isPrefixOf (c :: rest) then some ((c :: rest).drop pat.length)
    else afterFirst pat rest

/-- `parseRightmoveListingId`: the `/rightmove\.co\.uk\/properties\/(\d+)/i`
match, embedded as a case-insensitive search for the literal path
followed by a maximal digit run (the regex requires at least one
digit).  Only the first occurrence is considered. -/
def parseRightmoveListingId (url : String) : Option String :=
  match afterFirst "rightmove.co.uk/properties/".toList
      (url.toList.map Char.toLower) with
  | none => none
  | some rest =>
    let ds := rest.takeWhile Char.isDigit
    if ds = [] then none else some (String.mk ds)

/-- The `/\{[\s\S]*\}/` greedy fallback span: from the first `\x7b` to
the last `\x7d`, provided the latter comes after the former. -/
def greedyBraceSpan (s : String) : Option String :=
  let cs := s.toList
  match cs.findIdx? (fun c => c = '{'), cs.reverse.findIdx? (fun c => c = '}') with
  | some p, some rq =>
    let q := cs.length - 1 - rq
    if p < q then some (String.mk ((cs.drop p).take (q - p + 1))) else none
  | _, _ => none

/-- `parseJsonLoose` of the stats and evaluate routes, parameterized by
the `JSON.parse` primitive (`none` models a thrown SyntaxError; a
successful parse of the text `null` is `some .null`).  The second
`JSON.parse`, on the greedy brace span, is not wrapped in a try/catch
in the source, so its failure propagates as an exception
(`Except.error`). -/
def parseJsonLoose (jsonParse : String → Option JVal) (text : String) :
    Except Unit (Option JVal) :=
  let trimmed := jsTrim text
  if trimmed = "" then .ok none
  else
    match jsonParse trimmed with
    | some v => .ok (some v)
    | none =>
      match greedyBraceSpan trimmed with
      | none => .ok none
      | some sub =>
        match jsonParse sub with
        | some v => .ok (some v)
        | none => .error ()

/-- The `reqFields` list of `checkMinimumPreferences`. -/
def reqPrefFields : List String :=
  ["budget_max", "budget_flex", "min_bedrooms", "property_type_rank",
   "property_type_reject_below_index", "tenure_rank",
   "tenure_reject_below_index", "work_postcode", "transport_mode",
   "car_owner", "bike_owner", "transport_convenience_weight",
   "religion_required", "school_priority", "gym_priority", "has_children",
   "quiet_area_priority", "green_space_priority", "safety_weight",
   "cleanliness_weight", "storage_required", "affordability_weight"]

/-- Whether the named preference column is SQL NULL (the
`p?.[k] === null || p?.[k] === undefined` test of the loop). -/
def prefIsNull (p : Preferences) : String → Bool
  | "budget_max" => p.budget_max.isNone
  | "budget_flex" => p.budget_flex.isNone
  | "min_bedrooms" => p.min_bedrooms.isNone
  | "property_type_rank" => p.property_type_rank.isNone
  | "property_type_reject_below_index" => p.property_type_reject_below_index.isNone
  | "tenure_rank" => p.tenure_rank.isNone
  | "tenure_reject_below_index" => p.tenure_reject_below_index.isNone
  | "work_postcode" => p.work_postcode.isNone
  | "transport_mode" => p.transport_mode.isNone
  | "car_owner" => p.car_owner.isNone
  | "bike_owner" => p.bike_owner.isNone
  | "transport_convenience_weight" => p.transport_convenience_weight.isNone
  | "religion_required" => p.religion_required.isNone
  | "school_priority" => p.school_priority.isNone
  | "gym_priority" => p.gym_priority.isNone
  | "has_children" => p.has_children.isNone
  | "quiet_area_priority" => p.quiet_area_priority.isNone
  | "green_space_priority" => p.green_space_priority.isNone
  | "safety_weight" => p.safety_weight.isNone
  | "cleanliness_weight" => p.cleanliness_weight.isNone
  | "storage_required" => p.storage_required.isNone
  | "affordability_weight" => p.affordability_weight.isNone
  | _ => false

/-- The result shape of `checkMinimumPreferences`. -/
structure MinPrefResult where
  ok : Bool
  missing : List String
deriving DecidableEq, Repr

/-- `checkMinimumPreferences`: collects the NULL columns, then the three
extra non-emptiness checks (empty/blank `work_postcode`, empty rank
arrays), each appended only if not already present. -/
def checkMinimumPreferences (p : Preferences) : MinPrefResult :=
  let missing := reqPrefFields.filter (prefIsNull p)
  let missing :=
    if (match p.work_postcode with
        | none => true
        | some s => s = "" || (jsTrim s).length = 0) &&
       !(missing.contains "work_postcode")
    then missing ++ ["work_postcode"] else missing
  let missing :=
    if (match p.property_type_rank with
        | none => true
        | some l => l.isEmpty) &&
       !(missing.contains "property_type_rank")
    then missing ++ ["property_type_rank"] else missing
  let missing :=
    if (match p.tenure_rank with
        | none => true
        | some l => l.isEmpty) &&
       !(missing.contains "tenure_rank")
    then missing ++ ["tenure_rank"] else missing
  { ok := missing.isEmpty, missing := missing }

/-- `defaultPreferences` of the preferences route: the row auto-created
on a user's first GET when no row exists (restricted to the modelled
columns; the omitted `notes_*` and other nullable columns are NULL or
constants never read by the embedded routes). -/
def defaultPreferences : Preferences :=
  { budget_max := some 450000
    budget_flex := some 0
    min_bedrooms := some 2
    property_type_rank := some ["detached", "semi_detached", "terraced",
      "flat", "maisonette", "bungalow", "studio"]
    property_type_reject_below_index := some 0
    tenure_rank := some ["freehold", "share_of_freehold", "leasehold",
      "commonhold", "other"]
    tenure_reject_below_index := some 0
    work_postcode := some ""
    transport_mode := some "public_transport"
    car_owner := some false
    bike_owner := some false
    transport_convenience_weight := some 5
    religion_required := some false
    school_priority := some false
    gym_priority := some false
    has_children := some false
    quiet_area_priority := some false
    green_space_priority := some false
    safety_weight := some 5
    cleanliness_weight := some 5
    storage_required := some false
    affordability_weight := some 5 }

/-- `requiredFields()` of the stats route. -/
def requiredFields : List String :=
  ["commute_total_minutes", "commute_walk_minutes", "commute_mode",
   "nearest_station_distance_m", "nearest_station_name",
   "supermarket_distance_m", "supermarket_name",
   "green_space_distance_m", "green_space_name", "safety_score"]

/-- `isMediumOrHigh` of the stats route. -/
def isMediumOrHigh (c : String) : Bool :=
  c == "medium" || c == "high"

/-- Property `prop` of the annotation for field `k`:
`fields[k]?.[prop]` with JSON null collapsed by the following `??`. -/
def annProp (fields : JVal) (k prop : String) : Option JVal :=
  jopt ((jopt (fields.get? k)).bind (fun a => a.get? prop))

/-- `Number(fields[k]?.value ?? 0)`. -/
def fieldNum (fields : JVal) (k : String) : Int :=
  jsToNumber ((annProp fields k "value").getD (.num 0))

/-- `String(fields[k]?.value ?? "")`. -/
def fieldStr (fields : JVal) (k : String) : String :=
  jsToString ((annProp fields k "value").getD (.str ""))

/-- `String(fields[k]?.confidence ?? "low")`. -/
def fieldConfStr (fields : JVal) (k : String) : String :=
  jsToString ((annProp fields k "confidence").getD (.str "low"))

/-- `String(fields[k]?.notes ?? "")`. -/
def fieldNotes (fields : JVal) (k : String) : String :=
  jsToString ((annProp fields k "notes").getD (.str ""))

/-- The confidence resolution of the auto-confirm gate:
`String(fields[k]?.confidence ?? parsed.required_confidence?.[k] ?? "low")`. -/
def resolveConfidence (fields parsed : JVal) (k : String) : String :=
  jsToString
    (((annProp fields k "confidence").or
        (jopt ((jopt (parsed.get? "required_confidence")).bind
          (fun rc => rc.get? k)))).getD (.str "low"))

/-- The `rawPayload` built by the stats route from the parsed model
output. -/
def mkRawStats (sessionId : String) (parsed fields : JVal) (now : String) :
    RawStats :=
  { property_session_id := sessionId
    stats_version := jsToNumber ((jopt (parsed.get? "stats_version")).getD (.num 1))
    computed_at := now
    commute_total_minutes := fieldNum fields "commute_total_minutes"
    commute_walk_minutes := fieldNum fields "commute_walk_minutes"
    commute_mode := fieldStr fields "commute_mode"
    commute_confidence := fieldConfStr fields "commute_total_minutes"
    commute_notes := fieldNotes fields "commute_total_minutes"
    nearest_station_distance_m := fieldNum fields "nearest_station_distance_m"
    nearest_station_name := fieldStr fields "nearest_station_name"
    supermarket_distance_m := fieldNum fields "supermarket_distance_m"
    supermarket_name := fieldStr fields "supermarket_name"
    gym_distance_m := fieldNum fields "gym_distance_m"
    gym_name := fieldStr fields "gym_name"
    school_distance_m := fieldNum fields "school_distance_m"
    school_name := fieldStr fields "school_name"
    religious_building_distance_m := fieldNum fields "religious_building_distance_m"
    religious_building_name := fieldStr fields "religious_building_name"
    green_space_distance_m := fieldNum fields "green_space_distance_m"
    green_space_name := fieldStr fields "green_space_name"
    safety_score := fieldNum fields "safety_score"
    cleanliness_score := fieldNum fields "cleanliness_score"
    transport_convenience_score := fieldNum fields "transport_convenience_score"
    service_charge_estimate_annual := fieldNum fields "service_charge_estimate_annual"
    ground_rent_estimate_annual := fieldNum fields "ground_rent_estimate_annual"
    running_costs_confidence := fieldStr fields "running_costs_confidence"
    running_costs_notes := fieldStr fields "running_costs_notes"
    required_confidence := jopt (parsed.get? "required_confidence")
    required_source := jopt (parsed.get? "required_source")
    optional_confidence := jopt (parsed.get? "optional_confidence")
    optional_source := jopt (parsed.get? "optional_source") }

/-- The `confirmedPayload` of the auto-confirm branch: exactly the
required fields copied from the raw payload, the required
confidence/source maps, a fixed note, `confirmed_by_user: false` and
the current time. -/
def mkAutoConfirmed (raw : RawStats) (parsed : JVal) (now : String) :
    ConfirmedStats :=
  { property_session_id := raw.property_session_id
    commute_total_minutes := raw.commute_total_minutes
    commute_walk_minutes := raw.commute_walk_minutes
    commute_mode := raw.commute_mode
    nearest_station_distance_m := raw.nearest_station_distance_m
    nearest_station_name := raw.nearest_station_name
    supermarket_distance_m := raw.supermarket_distance_m
    supermarket_name := raw.supermarket_name
    green_space_distance_m := raw.green_space_distance_m
    green_space_name := raw.green_space_name
    safety_score := raw.safety_score
    required_confidence := jopt (parsed.get? "required_confidence")
    required_source := jopt (parsed.get? "required_source")
    notes := "Auto-confirmed (required fields medium/high)"
    confirmed_by_user := false
    confirmed_at := now }

/-- The auto-confirm decision of the stats route:
`reqFields.every(k => isMediumOrHigh(...))`. -/
def statsGateAllOk (parsed fields : JVal) : Bool :=
  requiredFields.all (fun k => isMediumOrHigh (resolveConfidence fields parsed k))

/-- The inputs a route draws from the environment and the external AI
collaborator: whether `OPENAI_API_KEY` is set, the `JSON.parse`
primitive, and the `output_text` of the model response (`?? ""`
already applied). -/
structure AIEnv where
  apiKeyPresent : Bool
  jsonParse : String → Option JVal
  outputText : String

/-- A route invocation's outcome: the HTTP response, the store after
the call, and whether the external AI collaborator was invoked. -/
structure RouteOut (ρ : Type) where
  resp : ρ
  db : DBState
  aiCalled : Bool

/-- Responses of POST /api/stats (one constructor per `return`). -/
inductive StatsResp where
  | serverError
  | forbidden
  | listingNotConfirmed
  | prefsNotFound
  | minPrefsMissing (missing : List String)
  | conflict (status : LifecycleStage)
  | quotaExceeded (used limit : Nat)
  | apiKeyMissing
  | aiUnparseable
  | okReady
  | okNeedsConfirmation
deriving DecidableEq, Repr

/-- HTTP status code of each stats response. -/
def StatsResp.httpStatus : StatsResp → Nat
  | .serverError => 500
  | .forbidden => 403
  | .listingNotConfirmed => 400
  | .prefsNotFound => 400
  | .minPrefsMissing _ => 400
  | .conflict _ => 409
  | .quotaExceeded _ _ => 402
  | .apiKeyMissing => 500
  | .aiUnparseable => 500
  | .okReady => 200
  | .okNeedsConfirmation => 200

/-- The tail of the stats route after a parse with a truthy `fields`
member: upsert of `listing_stats_raw`, then the auto-confirm gate,
writing `listing_stats_confirmed` and `STATS_READY` when every required
field resolves to medium/high, else only `STATS_NEEDS_CONFIRMATION`. -/
def statsFinalize (db : DBState) (sessionId : String)
    (parsed fields : JVal) (now : String) : StatsResp × DBState :=
  let rawPayload := mkRawStats sessionId parsed fields now
  let db1 := { db with statsRaw := fupd db.statsRaw sessionId rawPayload }
  if statsGateAllOk parsed fields then
    let conf := mkAutoConfirmed rawPayload parsed now
    let db2 := { db1 with
      statsConfirmed := fupd db1.statsConfirmed sessionId conf }
    (.okReady, updateStatusById db2 sessionId .STATS_READY)
  else
    (.okNeedsConfirmation,
     updateStatusById db1 sessionId .STATS_NEEDS_CONFIRMATION)

/-- The `allowedFrom` state set of the stats route. -/
def statsAllowedFrom (forceRecalc : Bool) : List LifecycleStage :=
  if forceRecalc then
    [.CONFIRMED, .STATS_FAILED, .STATS_READY, .AI_READY, .EVAL_FAILED,
     .STATS_NEEDS_CONFIRMATION]
  else
    [.CONFIRMED, .STATS_FAILED, .STATS_NEEDS_CONFIRMATION]

/-- POST /api/stats after authentication (`userId` is the verified
caller): ownership and precondition checks, guarded transition to
STATS_RUNNING, quota, AI call, tolerant parse, then `statsFinalize`.
A thrown error (failed session read, or the unguarded `JSON.parse` of
the fallback span) lands in the route's catch-all, which responds 500
without touching the session status. -/
def statsPost (env : AIEnv) (db : DBState) (userId sessionId : String)
    (forceRecalc : Bool) (now : String) : RouteOut StatsResp :=
  match findSession db sessionId with
  | none => ⟨.serverError, db, false⟩
  | some session =>
    if session.user_id ≠ userId then ⟨.forbidden, db, false⟩
    else
      let currentStatus := session.status
      if !(db.factsConfirmed sessionId) then ⟨.listingNotConfirmed, db, false⟩
      else
        match db.preferences userId with
        | none => ⟨.prefsNotFound, db, false⟩
        | some prefs =>
          let minp := checkMinimumPreferences prefs
          if !minp.ok then ⟨.minPrefsMissing minp.missing, db, false⟩
          else
            let g := setStatusGuarded db sessionId userId
              (statsAllowedFrom forceRecalc) .STATS_RUNNING
            if !g.1 then ⟨.conflict currentStatus, g.2, false⟩
            else
              let q := checkAndConsumeQuota userId .stats g.2
              if !q.1.ok then
                ⟨.quotaExceeded q.1.used q.1.limit,
                 updateStatusById q.2 sessionId currentStatus, false⟩
              else if !env.apiKeyPresent then
                ⟨.apiKeyMissing,
                 updateStatusById q.2 sessionId .STATS_FAILED, false⟩
              else
                match parseJsonLoose env.jsonParse env.outputText with
                | .error _ => ⟨.serverError, q.2, true⟩
                | .ok pOpt =>
                  let parsed := pOpt.getD .null
                  if !(jsTruthy parsed) || !(jsIsObjectType parsed) ||
                     !(match jopt (parsed.get? "fields") with
                       | some f => jsTruthy f
                       | none => false) then
                    ⟨.aiUnparseable,
                     updateStatusById q.2 sessionId .STATS_FAILED, true⟩
                  else
                    let fields := (parsed.get? "fields").getD .null
                    let r := statsFinalize q.2 sessionId parsed fields now
                    ⟨r.1, r.2, true⟩

/-- Responses of POST /api/evaluate. -/
inductive EvalResp where
  | serverError
  | forbidden
  | invalidState (status : LifecycleStage)
  | conflict (status : LifecycleStage)
  | listingNotConfirmed
  | statsNotReady
  | prefsNotFound
  | quotaExceeded (used limit : Nat)
  | apiKeyMissing
  | aiNonJson
  | okReady
deriving DecidableEq, Repr

/-- HTTP status code of each evaluate response. -/
def EvalResp.httpStatus : EvalResp → Nat
  | .serverError => 500
  | .forbidden => 403
  | .invalidState _ => 409
  | .conflict _ => 409
  | .listingNotConfirmed => 400
  | .statsNotReady => 400
  | .prefsNotFound => 400
  | .quotaExceeded _ _ => 402
  | .apiKeyMissing => 500
  | .aiNonJson => 500
  | .okReady => 200

/-- The `evalPayload` built by the evaluate route from the parsed model
output. -/
def mkEvalRaw (sessionId : String) (parsed : JVal) (now : String) : EvalRaw :=
  { property_session_id := sessionId
    rank_score := jopt (parsed.get? "rank_score")
    overall_score := jopt (parsed.get? "overall_score")
    executive_summary :=
      jsToString ((jopt (parsed.get? "executive_summary")).getD (.str ""))
    estate_agent_snippet :=
      jsToString ((jopt (parsed.get? "estate_agent_snippet")).getD (.str ""))
    per_preference := (jopt (parsed.get? "per_preference")).getD (JVal.objOf [])
    warnings := jopt (parsed.get? "warnings")
    assumptions := jopt (parsed.get? "assumptions")
    model_info := (jopt (parsed.get? "model_info")).getD
      (JVal.objOf [("schema_version", .num 1)])
    evaluated_at := now }

/-- The `from` state set of the evaluate route. -/
def evalAllowedFrom : List LifecycleStage :=
  [.STATS_READY, .AI_READY, .EVAL_FAILED]

/-- POST /api/evaluate after authentication: ownership check, explicit
state pre-check, guarded transition to EVAL_RUNNING, then the
confirmed-facts / confirmed-stats / preferences preconditions (each
reverting the status on failure), quota (reverting on exhaustion), AI
call, tolerant parse, artifact upsert, AI_READY. -/
def evaluatePost (env : AIEnv) (db : DBState) (userId sessionId : String)
    (now : String) : RouteOut EvalResp :=
  match findSession db sessionId with
  | none => ⟨.serverError, db, false⟩
  | some session =>
    if session.user_id ≠ userId then ⟨.forbidden, db, false⟩
    else
      let currentStatus := session.status
      if currentStatus ∉ evalAllowedFrom then
        ⟨.invalidState currentStatus, db, false⟩
      else
        let g := setStatusGuarded db sessionId userId evalAllowedFrom
          .EVAL_RUNNING
        if !g.1 then ⟨.conflict currentStatus, g.2, false⟩
        else
          let db1 := g.2
          if !(db1.factsConfirmed sessionId) then
            ⟨.listingNotConfirmed,
             updateStatusById db1 sessionId currentStatus, false⟩
          else if (db1.statsConfirmed sessionId).isNone then
            ⟨.statsNotReady,
             updateStatusById db1 sessionId currentStatus, false⟩
          else
            match db1.preferences userId with
            | none =>
              ⟨.prefsNotFound,
               updateStatusById db1 sessionId currentStatus, false⟩
            | some _ =>
              let q := checkAndConsumeQuota userId .evaluate db1
              if !q.1.ok then
                ⟨.quotaExceeded q.1.used q.1.limit,
                 updateStatusById q.2 sessionId currentStatus, false⟩
              else if !env.apiKeyPresent then
                ⟨.apiKeyMissing,
                 updateStatusById q.2 sessionId .EVAL_FAILED, false⟩
              else
                match parseJsonLoose env.jsonParse env.outputText with
                | .error _ => ⟨.serverError, q.2, true⟩
                | .ok pOpt =>
                  let parsed := pOpt.getD .null
                  if !(jsTruthy parsed) || !(jsIsObjectType parsed) then
                    ⟨.aiNonJson,
                     updateStatusById q.2 sessionId .EVAL_FAILED, true⟩
                  else
                    let db2 := { q.2 with
                      evalRaw :=
                        fupd q.2.evalRaw sessionId (mkEvalRaw sessionId parsed now) }
                    ⟨.okReady,
                     updateStatusById db2 sessionId .AI_READY, true⟩

/-- The user-supplied stats draft of POST /api/stats/confirm, with the
column types the `listing_stats_confirmed` table enforces.  `none`
models an absent / null / undefined member (the `must` helper rejects
exactly those, plus blank strings). -/
structure StatsDraft where
  commute_total_minutes : Option Int
  commute_walk_minutes : Option Int
  commute_mode : Option String
  nearest_station_distance_m : Option Int
  nearest_station_name : Option String
  supermarket_distance_m : Option Int
  supermarket_name : Option String
  green_space_distance_m : Option Int
  green_space_name : Option String
  safety_score : Option Int
  required_confidence : Option JVal
  required_source : Option JVal
  notes : Option String

/-- `must<number>`: throws (with the given message) on null/undefined. -/
def mustNum (v : Option Int) (msg : String) : Except String Int :=
  match v with
  | none => .error msg
  | some n => .ok n

/-- `must<string>`: throws on null/undefined and on blank strings. -/
def mustStr (v : Option String) (msg : String) : Except String String :=
  match v with
  | none => .error msg
  | some s => if jsTrim s = "" then .error msg else .ok s

/-- The `payload` object of the confirm route: every required field is
passed through `must`, the rest default. -/
def mkUserConfirmed (sessionId : String) (stats : StatsDraft)
    (now : String) : Except String ConfirmedStats := do
  let ctm ← mustNum stats.commute_total_minutes "commute_total_minutes required"
  let cwm ← mustNum stats.commute_walk_minutes "commute_walk_minutes required"
  let cm ← mustStr stats.commute_mode "commute_mode required"
  let nsd ← mustNum stats.nearest_station_distance_m "nearest_station_distance_m required"
  let nsn ← mustStr stats.nearest_station_name "nearest_station_name required"
  let smd ← mustNum stats.supermarket_distance_m "supermarket_distance_m required"
  let smn ← mustStr stats.supermarket_name "supermarket_name required"
  let gsd ← mustNum stats.green_space_distance_m "green_space_distance_m required"
  let gsn ← mustStr stats.green_space_name "green_space_name required"
  let ss ← mustNum stats.safety_score "safety_score required"
  .ok
    { property_session_id := sessionId
      commute_total_minutes := ctm
      commute_walk_minutes := cwm
      commute_mode := cm
      nearest_station_distance_m := nsd
      nearest_station_name := nsn
      supermarket_distance_m := smd
      supermarket_name := smn
      green_space_distance_m := gsd
      green_space_name := gsn
      safety_score := ss
      required_confidence := stats.required_confidence
      required_source := stats.required_source
      notes := stats.notes.getD "Confirmed by user"
      confirmed_by_user := true
      confirmed_at := now }

/-- Responses of POST /api/stats/confirm.  Thrown errors (a failed
`must`, or a failed session read) land in this route's catch, which
responds 400. -/
inductive ConfirmResp where
  | badRequest (msg : String)
  | forbidden
  | conflict (status : LifecycleStage)
  | okReady
deriving DecidableEq, Repr

/-- HTTP status code of each confirm response. -/
def ConfirmResp.httpStatus : ConfirmResp → Nat
  | .badRequest _ => 400
  | .forbidden => 403
  | .conflict _ => 409
  | .okReady => 200

/-- POST /api/stats/confirm after authentication: ownership check,
strict single-state guard on STATS_NEEDS_CONFIRMATION, draft
validation, upsert of the user-confirmed stats, then STATS_READY. -/
def confirmStatsPost (db : DBState) (userId sessionId : String)
    (stats : StatsDraft) (now : String) : RouteOut ConfirmResp :=
  match findSession db sessionId with
  | none => ⟨.badRequest "session read failed", db, false⟩
  | some s =>
    if s.user_id ≠ userId then ⟨.forbidden, db, false⟩
    else if s.status ≠ .STATS_NEEDS_CONFIRMATION then
      ⟨.conflict s.status, db, false⟩
    else
      match mkUserConfirmed sessionId stats now with
      | .error msg => ⟨.badRequest msg, db, false⟩
      | .ok payload =>
        let db1 := { db with
          statsConfirmed := fupd db.statsConfirmed sessionId payload }
        ⟨.okReady, updateStatusById db1 sessionId .STATS_READY, false⟩

/-- The facts object `callOpenAIWithWeb` returns when the API key is
absent. -/
def noKeyFacts : JVal :=
  JVal.objOf [("ai_warnings",
          JVal.arrOf [.str "OPENAI_API_KEY missing - skipping AI extraction"]),
        ("ai_confidence", JVal.objOf [("overall", .num 0)])]

/-- The facts object `callOpenAIWithWeb` returns when the model output
is empty, non-JSON without a brace span, or not an object. -/
def nonJsonFacts : JVal :=
  JVal.objOf [("ai_warnings", JVal.arrOf [.str "AI returned non-JSON or empty output"]),
        ("ai_confidence", JVal.objOf [("overall", .num 0)])]

/-- `callOpenAIWithWeb` of the extract route: returns a warnings-only
facts object (not an error) when the API key is missing or the output
is unusable; the fallback `JSON.parse` on the greedy brace span is not
guarded, so its failure is an exception (`Except.error`) that
propagates to the route's catch-all. -/
def callOpenAIWithWeb (env : AIEnv) : Except Unit JVal :=
  if !env.apiKeyPresent then .ok noKeyFacts
  else
    let finish (parsed : Option JVal) : JVal :=
      match parsed with
      | some p => if jsTruthy p && jsIsObjectType p then p else nonJsonFacts
      | none => nonJsonFacts
    match env.jsonParse env.outputText with
    | some p => .ok (finish (some p))
    | none =>
      match greedyBraceSpan env.outputText with
      | none => .ok (finish none)
      | some sub =>
        match env.jsonParse sub with
        | some p => .ok (finish (some p))
        | none => .error ()

/-- The `listing_facts_raw` row `writeFactsRaw` builds from the facts
object (each member `?? null`). -/
def mkFactsRow (sessionId : String) (facts : JVal) : FactsRawRow :=
  { property_session_id := sessionId
    price := jopt (facts.get? "price")
    bedrooms := jopt (facts.get? "bedrooms")
    bathrooms := jopt (facts.get? "bathrooms")
    property_type := jopt (facts.get? "property_type")
    tenure := jopt (facts.get? "tenure")
    lease_years_remaining := jopt (facts.get? "lease_years_remaining")
    postcode := jopt (facts.get? "postcode")
    address := jopt (facts.get? "address")
    description := jopt (facts.get? "description")
    estate_agent := jopt (facts.get? "estate_agent")
    ai_confidence := jopt (facts.get? "ai_confidence")
    ai_warnings := jopt (facts.get? "ai_warnings") }

/-- The error `enforceMaxLinks` throws at 100 sessions. -/
inductive UpsertErr where
  | maxLinks
deriving DecidableEq, Repr

/-- The `enforceMaxLinks` count check: under 100 saved sessions. -/
def underMaxLinks (db : DBState) (userId : String) : Bool :=
  (db.sessions.filter (fun s => s.user_id == userId)).length < 100

/-- `upsertPropertySession`: look up the existing session by
`(user_id, rightmove_listing_id)` when a listing id was parsed, else by
`(user_id, rightmove_url)`; return it if found (no cap check), else
enforce the 100-session cap and insert a CREATED session.  `newId` is
the database-assigned id of a fresh row.  The uniqueness invariants of
the spec make the lookups single-valued. -/
def upsertPropertySession (db : DBState) (userId url : String)
    (listingId : Option String) (newId : String) :
    Except UpsertErr (Session × DBState) :=
  match listingId with
  | some lid =>
    match db.sessions.find? (fun s =>
        s.user_id == userId && s.rightmove_listing_id == some lid) with
    | some existing => .ok (existing, db)
    | none =>
      if !underMaxLinks db userId then .error .maxLinks
      else
        let s : Session :=
          { id := newId, user_id := userId, rightmove_url := url
            rightmove_listing_id := some lid, status := .CREATED
            last_extracted_at := none }
        .ok (s, { db with sessions := db.sessions ++ [s] })
  | none =>
    match db.sessions.find? (fun s =>
        s.user_id == userId && s.rightmove_url == url &&
        s.rightmove_listing_id == none) with
    | some existing => .ok (existing, db)
    | none =>
      if !underMaxLinks db userId then .error .maxLinks
      else
        let s : Session :=
          { id := newId, user_id := userId, rightmove_url := url
            rightmove_listing_id := none, status := .CREATED
            last_extracted_at := none }
        .ok (s, { db with sessions := db.sessions ++ [s] })

/-- Responses of POST /api/extract with `stage = "full"`. -/
inductive ExtractResp where
  | quotaExceeded (used limit : Nat)
  | maxLinks (limit : Nat)
  | fetchFailed
  | aiThrown
  | okFull (session_id : String) (listing_id : Option String)
deriving DecidableEq, Repr

/-- HTTP status code of each extract response. -/
def ExtractResp.httpStatus : ExtractResp → Nat
  | .quotaExceeded _ _ => 402
  | .maxLinks _ => 403
  | .fetchFailed => 500
  | .aiThrown => 500
  | .okFull _ _ => 200

/-- POST /api/extract with `stage = "full"` after authentication and
with `rightmove_url` present in the body (the earlier-stage exits and
the missing-url 400 are not modelled): quota first, then fetch
(`fetchOk` abstracts the Rightmove fetch; HTML snippet scraping is an
external concern and never inspected downstream by the embedded
logic), then the AI call, then session upsert — whose MAX_LINKS error
maps to a 403 — then the FETCHED_HTML / AI_PARSED writes, the raw
facts upsert and the final NEEDS_CONFIRMATION write. -/
def extractPost (env : AIEnv) (fetchOk : Bool) (db : DBState)
    (userId url newId now : String) : RouteOut ExtractResp :=
  let q := checkAndConsumeQuota userId .extract db
  if !q.1.ok then ⟨.quotaExceeded q.1.used q.1.limit, q.2, false⟩
  else
    let db1 := q.2
    let listingId := parseRightmoveListingId url
    if !fetchOk then ⟨.fetchFailed, db1, false⟩
    else
      match callOpenAIWithWeb env with
      | .error _ => ⟨.aiThrown, db1, env.apiKeyPresent⟩
      | .ok facts =>
        match upsertPropertySession db1 userId url listingId newId with
        | .error .maxLinks => ⟨.maxLinks 100, db1, env.apiKeyPresent⟩
        | .ok (session, db2) =>
          let db3 := updateSessionStatus db2 session.id .FETCHED_HTML now
          let db4 := updateSessionStatus db3 session.id .AI_PARSED now
          let db5 := { db4 with
            factsRaw := fupd db4.factsRaw session.id
              (mkFactsRow session.id facts) }
          let db6 := updateSessionStatus db5 session.id .NEEDS_CONFIRMATION now
          ⟨.okFull session.id listingId, db6, env.apiKeyPresent⟩

/-- An empty store, the base of the concrete witnesses below. -/
def emptyDB : DBState :=
  { sessions := [], counters := fun _ => none, ledger := []
    factsRaw := fun _ => none, factsConfirmed := fun _ => false
    statsRaw := fun _ => none, statsConfirmed := fun _ => none
    evalRaw := fun _ => none, preferences := fun _ => none }

/-- Updating the counters map at a key reads back the new row. -/
theorem fupd_same {α : Type} (f : String → Option α) (k : String) (v : α) :
    fupd f k v k = some v := by
  simp [fupd]

/-- Claim C1: for every user and metered action, `checkAndConsume`
called when `used ≥ limit` returns `{ok:false, used, limit}` and
mutates nothing — the counter keeps its value, no ledger row is
appended, the session statuses are untouched; when `used < limit` it
sets the counter to `used+1`, appends exactly one ledger entry with
`action_type` equal to the action, `delta = -1`, `reason = "usage"`,
`direction = "debit"`, `amount = 1`, and returns
`{ok:true, used: used+1, limit}`. -/
theorem c1_quota_spec (userId : String) (a : MeteredAction) (db : DBState)
    (row : UsageCounters) (h : db.counters userId = some row) :
    (usedOf a row ≥ limitOf a row →
      checkAndConsumeQuota userId a db =
        ({ ok := false, used := usedOf a row, limit := limitOf a row }, db)) ∧
    (usedOf a row < limitOf a row →
      (checkAndConsumeQuota userId a db).1 =
        { ok := true, used := usedOf a row + 1, limit := limitOf a row } ∧
      (checkAndConsumeQuota userId a db).2.counters userId =
        some (setUsed a row (usedOf a row + 1)) ∧
      (checkAndConsumeQuota userId a db).2.ledger =
        db.ledger ++ [usageLedgerEntry userId a] ∧
      (checkAndConsumeQuota userId a db).2.sessions = db.sessions ∧
      (usageLedgerEntry userId a).action_type = a.name ∧
      (usageLedgerEntry userId a).delta = -1 ∧
      (usageLedgerEntry userId a).reason = "usage" ∧
      (usageLedgerEntry userId a).direction = "debit" ∧
      (usageLedgerEntry userId a).amount = 1) := by
  have hens : ensureUsageRow userId db = db := by
    unfold ensureUsageRow
    rw [h]
  constructor
  · intro hge
    simp only [checkAndConsumeQuota, hens, h]
    simp [hge]
  · intro hlt
    simp only [checkAndConsumeQuota, hens, h]
    simp [Nat.not_le.mpr hlt, fupd_same, usageLedgerEntry]

/-- A counters row with the extract quota exhausted (5 of 5) and the
stats quota open (2 of 3). -/
def c1Row : UsageCounters :=
  { extract_used := 5, extract_limit := 5, stats_used := 2, stats_limit := 3
    evaluate_used := 0, evaluate_limit := 0 }

/-- A store holding only user u1's counters row `c1Row`. -/
def c1DB : DBState :=
  { emptyDB with counters := fupd emptyDB.counters "u1" c1Row }

/-- Witness for C1: at `extract_used = extract_limit = 5` the call
returns `ok:false` and leaves the store untouched; at
`stats_used = 2 < 3 = stats_limit` it returns `ok:true, used = 3` and
appends the usage debit. -/
theorem c1_quota_spec_witness :
    checkAndConsumeQuota "u1" .extract c1DB =
      ({ ok := false, used := 5, limit := 5 }, c1DB) ∧
    ((checkAndConsumeQuota "u1" .stats c1DB).1 =
      { ok := true, used := 3, limit := 3 } ∧
     (checkAndConsumeQuota "u1" .stats c1DB).2.ledger =
      c1DB.ledger ++ [usageLedgerEntry "u1" .stats]) := by
  have h : c1DB.counters "u1" = some c1Row := by
    simp [c1DB, fupd_same]
  refine ⟨(c1_quota_spec "u1" .extract c1DB c1Row h).1 (by decide), ?_, ?_⟩
  · exact ((c1_quota_spec "u1" .stats c1DB c1Row h).2 (by decide)).1
  · exact ((c1_quota_spec "u1" .stats c1DB c1Row h).2 (by decide)).2.2.1

/-- A status-only update of the rows with a given id commutes with
looking that id up. -/
theorem find?_status_update (l : List Session) (sid : String)
    (st : LifecycleStage) :
    (l.map (fun s => if s.id == sid then { s with status := st } else s)).find?
        (fun s => s.id == sid) =
      (l.find? (fun s => s.id == sid)).map
        (fun s => { s with status := st }) := by
  induction l with
  | nil => rfl
  | cons a l ih =>
    simp only [List.map_cons]
    cases hb : (a.id == sid) with
    | true =>
      rw [if_pos rfl]
      simp [List.find?_cons, hb]
    | false =>
      rw [if_neg (by simp [hb])]
      simp only [List.find?_cons, hb]
      exact ih

/-- `findSession` after `updateStatusById` sees the updated status. -/
theorem findSession_updateStatusById (db : DBState) (sid : String)
    (st : LifecycleStage) :
    findSession (updateStatusById db sid st) sid =
      (findSession db sid).map (fun s => { s with status := st }) := by
  unfold findSession updateStatusById
  exact find?_status_update db.sessions sid st

/-- Counterexample to claim C2 as stated: the required-field set the
auto-confirm gate iterates over has ten members, not nine — it is
exactly the enumerated list
commute_total_minutes .. safety_score. -/
theorem c2_required_count_counterexample :
    requiredFields =
      ["commute_total_minutes", "commute_walk_minutes", "commute_mode",
       "nearest_station_distance_m", "nearest_station_name",
       "supermarket_distance_m", "supermarket_name",
       "green_space_distance_m", "green_space_name", "safety_score"] ∧
    requiredFields.length = 10 ∧ ¬(requiredFields.length = 9) := by
  refine ⟨rfl, rfl, by decide⟩

/-- Claim C2 (amended: the enumerated required-field set has ten
members, not nine): auto-confirmation resolves, for each required
field, the per-field confidence if present, else
`required_confidence[field]`, else `"low"`; iff every required field
resolves to medium or high, a Confirmed stats record — exactly the
required fields plus required_confidence/required_source, with
`confirmed_by_user = false` and `confirmed_at` set — is written and the
session ends in STATS_READY; if any required field resolves otherwise
(including by being absent from both maps), no Confirmed record is
written, only the Raw stats are persisted, and the session ends in
STATS_NEEDS_CONFIRMATION. -/
theorem c2_confidence_gate (db : DBState) (sessionId : String)
    (parsed fields : JVal) (now : String) (s : Session)
    (hs : findSession db sessionId = some s) :
    ((∀ k ∈ requiredFields, isMediumOrHigh (resolveConfidence fields parsed k)) →
      (statsFinalize db sessionId parsed fields now).1 = .okReady ∧
      (statsFinalize db sessionId parsed fields now).2.statsConfirmed sessionId =
        some (mkAutoConfirmed (mkRawStats sessionId parsed fields now) parsed now) ∧
      (mkAutoConfirmed (mkRawStats sessionId parsed fields now) parsed now).confirmed_by_user = false ∧
      (mkAutoConfirmed (mkRawStats sessionId parsed fields now) parsed now).confirmed_at = now ∧
      (statsFinalize db sessionId parsed fields now).2.statsRaw sessionId =
        some (mkRawStats sessionId parsed fields now) ∧
      findSession (statsFinalize db sessionId parsed fields now).2 sessionId =
        some { s with status := .STATS_READY }) ∧
    ((¬ ∀ k ∈ requiredFields, isMediumOrHigh (resolveConfidence fields parsed k)) →
      (statsFinalize db sessionId parsed fields now).1 = .okNeedsConfirmation ∧
      (statsFinalize db sessionId parsed fields now).2.statsConfirmed =
        db.statsConfirmed ∧
      (statsFinalize db sessionId parsed fields now).2.statsRaw sessionId =
        some (mkRawStats sessionId parsed fields now) ∧
      findSession (statsFinalize db sessionId parsed fields now).2 sessionId =
        some { s with status := .STATS_NEEDS_CONFIRMATION }) := by
  constructor
  · intro hall
    have hgate : statsGateAllOk parsed fields = true := by
      simp only [statsGateAllOk, List.all_eq_true]
      exact hall
    have hfin : statsFinalize db sessionId parsed fields now =
        (StatsResp.okReady,
         updateStatusById
           { db with
             statsRaw := fupd db.statsRaw sessionId
               (mkRawStats sessionId parsed fields now),
             statsConfirmed := fupd db.statsConfirmed sessionId
               (mkAutoConfirmed (mkRawStats sessionId parsed fields now) parsed now) }
           sessionId .STATS_READY) := by
      simp [statsFinalize, hgate]
    rw [hfin]
    refine ⟨rfl, ?_, rfl, rfl, ?_, ?_⟩
    · exact fupd_same _ _ _
    · exact fupd_same _ _ _
    · rw [findSession_updateStatusById]
      have h2 : findSession { db with
          statsRaw := fupd db.statsRaw sessionId (mkRawStats sessionId parsed fields now),
          statsConfirmed := fupd db.statsConfirmed sessionId
            (mkAutoConfirmed (mkRawStats sessionId parsed fields now) parsed now) }
          sessionId = some s := hs
      rw [h2]
      rfl
  · intro hnot
    have hgate : statsGateAllOk parsed fields = false := by
      simp only [statsGateAllOk]
      rw [List.all_eq_false]
      push_neg at hnot
      obtain ⟨k, hk, hn⟩ := hnot
      exact ⟨k, hk, by simpa using hn⟩
    have hfin : statsFinalize db sessionId parsed fields now =
        (StatsResp.okNeedsConfirmation,
         updateStatusById
           { db with
             statsRaw := fupd db.statsRaw sessionId
               (mkRawStats sessionId parsed fields now) }
           sessionId .STATS_NEEDS_CONFIRMATION) := by
      simp [statsFinalize, hgate]
    rw [hfin]
    refine ⟨rfl, rfl, ?_, ?_⟩
    · exact fupd_same _ _ _
    · rw [findSession_updateStatusById]
      have h2 : findSession { db with
          statsRaw := fupd db.statsRaw sessionId (mkRawStats sessionId parsed fields now) }
          sessionId = some s := hs
      rw [h2]
      rfl

/-- A session sitting in STATS_RUNNING, as left by the guarded
transition of the stats route. -/
def c2Session : Session :=
  { id := "s2", user_id := "u2", rightmove_url := "https://example.test/2"
    rightmove_listing_id := some "2", status := .STATS_RUNNING
    last_extracted_at := none }

/-- A store holding only `c2Session`. -/
def c2DB : DBState := { emptyDB with sessions := [c2Session] }

/-- A parsed fields object annotating every required field at high
confidence. -/
def c2Fields : JVal :=
  JVal.objOf (requiredFields.map (fun k =>
    (k, JVal.objOf [("value", .num 1), ("confidence", .str "high")])))

/-- A parsed stats payload around `c2Fields`. -/
def c2Parsed : JVal := JVal.objOf [("fields", c2Fields), ("stats_version", .num 1)]

/-- As `c2Fields` but with `safety_score` flipped to low confidence. -/
def c2FieldsLow : JVal :=
  JVal.objOf (requiredFields.map (fun k =>
    (k, JVal.objOf [("value", .num 1),
              ("confidence",
               .str (if k = "safety_score" then "low" else "high"))])))

/-- A parsed stats payload around `c2FieldsLow`. -/
def c2ParsedLow : JVal := JVal.objOf [("fields", c2FieldsLow)]

/-- Witness for C2: with all ten required fields at high confidence the
gate auto-confirms and the session ends in STATS_READY; flipping
`safety_score` to low blocks the Confirmed write and the session ends
in STATS_NEEDS_CONFIRMATION. -/
theorem c2_confidence_gate_witness :
    (statsFinalize c2DB "s2" c2Parsed c2Fields "t0").1 = .okReady ∧
    findSession (statsFinalize c2DB "s2" c2Parsed c2Fields "t0").2 "s2" =
      some { c2Session with status := .STATS_READY } ∧
    (statsFinalize c2DB "s2" c2ParsedLow c2FieldsLow "t0").1 =
      .okNeedsConfirmation ∧
    (statsFinalize c2DB "s2" c2ParsedLow c2FieldsLow "t0").2.statsConfirmed =
      c2DB.statsConfirmed := by
  have hs : findSession c2DB "s2" = some c2Session := by decide
  have hi := c2_confidence_gate c2DB "s2" c2Parsed c2Fields "t0" c2Session hs
  have lo := c2_confidence_gate c2DB "s2" c2ParsedLow c2FieldsLow "t0" c2Session hs
  refine ⟨(hi.1 (by decide)).1, (hi.1 (by decide)).2.2.2.2.2,
          (lo.2 (by decide)).1, (lo.2 (by decide)).2.1⟩

/-- With unique session ids, any row sharing the id of the `find?`
result is that result. -/
theorem eq_of_mem_of_find?_id (l : List Session) (sid : String)
    (s r : Session) (hN : (l.map (fun x => x.id)).Nodup)
    (hf : l.find? (fun x => x.id == sid) = some s)
    (hr : r ∈ l) (hid : r.id = sid) : r = s := by
  induction l with
  | nil => cases hr
  | cons a l ih =>
    have hN' := hN
    rw [List.map_cons, List.nodup_cons] at hN'
    cases hb : (a.id == sid) with
    | true =>
      simp only [List.find?_cons, hb] at hf
      rcases List.mem_cons.mp hr with h | h
      · rw [h, Option.some.inj hf]
      · exfalso
        apply hN'.1
        have hmem : r.id ∈ l.map (fun x => x.id) := List.mem_map_of_mem _ h
        rw [hid, ← (by simpa using hb : a.id = sid)] at hmem
        exact hmem
    | false =>
      simp only [List.find?_cons, hb] at hf
      rcases List.mem_cons.mp hr with h | h
      · exfalso
        rw [← h] at hb
        simp [hid] at hb
      · exact ih hN'.2 hf h

/-- With unique session ids, at most one row passes the guarded-update
filter. -/
theorem filter_matches_length_le_one (l : List Session) (sid uid : String)
    (fs : List LifecycleStage)
    (hN : (l.map (fun x => x.id)).Nodup) :
    (l.filter (sessionMatches sid uid fs)).length ≤ 1 := by
  induction l with
  | nil => simp
  | cons a l ih =>
    have hN' := hN
    rw [List.map_cons, List.nodup_cons] at hN'
    cases ha : sessionMatches sid uid fs a with
    | false => simpa [List.filter_cons, ha] using ih hN'.2
    | true =>
      have haid : a.id = sid := by
        have := of_decide_eq_true ha
        exact this.1
      have hnil : l.filter (sessionMatches sid uid fs) = [] := by
        rw [List.filter_eq_nil_iff]
        intro r hr hmat
        have hrid : r.id = sid := (of_decide_eq_true hmat).1
        apply hN'.1
        have : r.id ∈ l.map (fun x => x.id) := List.mem_map_of_mem _ hr
        rw [hrid, ← haid] at this
        exact this
      simp [List.filter_cons, ha, hnil]

/-- Claim C3: `guardedTransition` returns true iff exactly one session
row matches `id = sessionId, owner = ownerId, status ∈ fromSet` (ids
are unique), in which case exactly the matching row's status becomes
`to`; on false nothing is mutated; and the stats orchestrator treats a
false guard as a 409 conflict with no further side effects — store
unchanged, no quota consumed, no AI call — while the evaluate
orchestrator rejects a status outside its from-set with a 409 and no
side effects before even reaching the guard. -/
theorem c3_guarded_transition (db : DBState) (sid uid : String)
    (fs : List LifecycleStage) (tgt : LifecycleStage)
    (hN : (db.sessions.map (fun x => x.id)).Nodup) :
    ((setStatusGuarded db sid uid fs tgt).1 = true ↔
      (db.sessions.filter (sessionMatches sid uid fs)).length = 1) ∧
    ((setStatusGuarded db sid uid fs tgt).1 = false →
      (setStatusGuarded db sid uid fs tgt).2 = db) ∧
    ((setStatusGuarded db sid uid fs tgt).2.sessions =
      db.sessions.map (fun s =>
        if sessionMatches sid uid fs s then { s with status := tgt } else s) ∧
     (setStatusGuarded db sid uid fs tgt).2.counters = db.counters ∧
     (setStatusGuarded db sid uid fs tgt).2.ledger = db.ledger ∧
     (setStatusGuarded db sid uid fs tgt).2.statsConfirmed = db.statsConfirmed) ∧
    (∀ (env : AIEnv) (force : Bool) (now : String) (s : Session)
        (prefs : Preferences),
      findSession db sid = some s → s.user_id = uid →
      db.factsConfirmed sid = true → db.preferences uid = some prefs →
      (checkMinimumPreferences prefs).ok = true →
      s.status ∉ statsAllowedFrom force →
      statsPost env db uid sid force now =
        ⟨.conflict s.status, db, false⟩ ∧
      StatsResp.httpStatus (.conflict s.status) = 409) ∧
    (∀ (env : AIEnv) (now : String) (s : Session),
      findSession db sid = some s → s.user_id = uid →
      s.status ∉ evalAllowedFrom →
      evaluatePost env db uid sid now =
        ⟨.invalidState s.status, db, false⟩ ∧
      EvalResp.httpStatus (.invalidState s.status) = 409) := by
  have hany : ∀ (fs' : List LifecycleStage) (s : Session),
      findSession db sid = some s → s.status ∉ fs' →
      db.sessions.any (sessionMatches sid uid fs') = false := by
    intro fs' s hf hstat
    rw [List.any_eq_false]
    intro r hr
    intro hmat
    have h3 := of_decide_eq_true hmat
    have : r = s := eq_of_mem_of_find?_id db.sessions sid s r hN hf hr h3.1
    rw [this] at h3
    exact hstat h3.2.2
  have hunch : ∀ (fs' : List LifecycleStage) (tgt' : LifecycleStage),
      db.sessions.any (sessionMatches sid uid fs') = false →
      (setStatusGuarded db sid uid fs' tgt').2 = db := by
    intro fs' tgt' hfalse
    rw [List.any_eq_false] at hfalse
    have hmap : db.sessions.map (fun s =>
        if sessionMatches sid uid fs' s then { s with status := tgt' } else s) =
        db.sessions := by
      have h1 : db.sessions.map (fun s =>
          if sessionMatches sid uid fs' s then { s with status := tgt' } else s) =
          db.sessions.map id :=
        List.map_congr_left (fun r hr => by
          rw [if_neg (by simpa using hfalse r hr)]
          rfl)
      simpa using h1
    show { db with sessions := _ } = db
    rw [hmap]
  refine ⟨?_, ?_, ⟨rfl, rfl, rfl, rfl⟩, ?_, ?_⟩
  · show db.sessions.any (sessionMatches sid uid fs) = true ↔ _
    constructor
    · intro hAny
      rw [List.any_eq_true] at hAny
      obtain ⟨r, hr, hmat⟩ := hAny
      have hle := filter_matches_length_le_one db.sessions sid uid fs hN
      have hmem : r ∈ db.sessions.filter (sessionMatches sid uid fs) :=
        List.mem_filter.mpr ⟨hr, hmat⟩
      have hpos := List.length_pos_of_mem hmem
      omega
    · intro hlen
      rw [List.any_eq_true]
      have hne : db.sessions.filter (sessionMatches sid uid fs) ≠ [] := by
        intro h
        rw [h] at hlen
        simp at hlen
      obtain ⟨r, hr⟩ := List.exists_mem_of_ne_nil _ hne
      exact ⟨r, (List.mem_filter.mp hr).1, (List.mem_filter.mp hr).2⟩
  · intro hfalse
    exact hunch fs tgt hfalse
  · intro env force now s prefs hf huser hfc hp hmin hstat
    have hg : db.sessions.any
        (sessionMatches sid uid (statsAllowedFrom force)) = false :=
      hany (statsAllowedFrom force) s hf hstat
    have hg1 : (setStatusGuarded db sid uid (statsAllowedFrom force)
        .STATS_RUNNING).1 = false := hg
    refine ⟨?_, rfl⟩
    simp only [statsPost, hf]
    simp [huser, hfc, hp, hmin, hg1,
          hunch (statsAllowedFrom force) .STATS_RUNNING hg]
  · intro env now s hf huser hstat
    refine ⟨?_, rfl⟩
    simp only [evaluatePost, hf]
    simp [huser, hstat]

/-- A session of user u3 still in CREATED. -/
def c3Session : Session :=
  { id := "s3", user_id := "u3", rightmove_url := "https://example.test/3"
    rightmove_listing_id := some "3", status := .CREATED
    last_extracted_at := none }

/-- The default preferences with a work postcode filled in, passing the
minimum-preferences check. -/
def c3Prefs : Preferences :=
  { defaultPreferences with work_postcode := some "AB1 2CD" }

/-- A store with `c3Session`, confirmed facts for it, and complete
preferences for u3. -/
def c3DB : DBState :=
  { emptyDB with
    sessions := [c3Session]
    factsConfirmed := fun sid => sid == "s3"
    preferences := fupd emptyDB.preferences "u3" c3Prefs }

/-- An environment with no API key and an inert JSON parser (never
reached by the witnesses that use it). -/
def c3Env : AIEnv :=
  { apiKeyPresent := false, jsonParse := fun _ => none, outputText := "" }

/-- Witness for C3: on `c3DB` the guard from CREATED succeeds (exactly
one row matches), the guard from CONFIRMED fails and mutates nothing,
and both orchestrators answer a wrong-state call with a 409 and an
untouched store. -/
theorem c3_guarded_transition_witness :
    (setStatusGuarded c3DB "s3" "u3" [.CREATED] .STATS_RUNNING).1 = true ∧
    (setStatusGuarded c3DB "s3" "u3" [.CONFIRMED] .STATS_RUNNING).2 = c3DB ∧
    statsPost c3Env c3DB "u3" "s3" false "t0" =
      ⟨.conflict .CREATED, c3DB, false⟩ ∧
    evaluatePost c3Env c3DB "u3" "s3" "t0" =
      ⟨.invalidState .CREATED, c3DB, false⟩ := by
  have h1 := c3_guarded_transition c3DB "s3" "u3" [.CREATED] .STATS_RUNNING
    (by decide)
  have h2 := c3_guarded_transition c3DB "s3" "u3" [.CONFIRMED] .STATS_RUNNING
    (by decide)
  refine ⟨h1.1.mpr (by decide), h2.2.1 (by decide), ?_, ?_⟩
  · exact (h2.2.2.2.1 c3Env false "t0" c3Session c3Prefs (by decide) rfl
      (by decide) (by decide) (by decide) (by decide)).1
  · exact (h2.2.2.2.2 c3Env "t0" c3Session (by decide) rfl (by decide)).1

/-- Every payload the confirm-route validation accepts carries
`confirmed_by_user = true` and the current time. -/
theorem mkUserConfirmed_flags (sessionId : String) (stats : StatsDraft)
    (now : String) (payload : ConfirmedStats)
    (h : mkUserConfirmed sessionId stats now = .ok payload) :
    payload.confirmed_by_user = true ∧ payload.confirmed_at = now := by
  unfold mkUserConfirmed at h
  simp only [bind, Except.bind] at h
  repeat' split at h
  all_goals simp_all
  all_goals subst h
  all_goals exact ⟨rfl, rfl⟩

/-- Claim C4: `confirmStats` succeeds only when the session status is
exactly STATS_NEEDS_CONFIRMATION — any other status yields a 409 with
no write; from STATS_NEEDS_CONFIRMATION, a draft whose required fields
are all present and well-typed is upserted as the Confirmed stats with
`confirmed_by_user = true` — no hypothesis on any confidence value,
i.e. the confidence gate is bypassed — and the status becomes
STATS_READY, while a draft failing validation yields a 400 with no
write. -/
theorem c4_confirm_stats (db : DBState) (userId sessionId : String)
    (stats : StatsDraft) (now : String) (s : Session)
    (hf : findSession db sessionId = some s) (huser : s.user_id = userId) :
    (s.status ≠ .STATS_NEEDS_CONFIRMATION →
      confirmStatsPost db userId sessionId stats now =
        ⟨.conflict s.status, db, false⟩ ∧
      ConfirmResp.httpStatus (.conflict s.status) = 409) ∧
    (s.status = .STATS_NEEDS_CONFIRMATION →
      (∀ payload, mkUserConfirmed sessionId stats now = .ok payload →
        (confirmStatsPost db userId sessionId stats now).resp = .okReady ∧
        (confirmStatsPost db userId sessionId stats now).db.statsConfirmed
            sessionId = some payload ∧
        payload.confirmed_by_user = true ∧
        payload.confirmed_at = now ∧
        findSession (confirmStatsPost db userId sessionId stats now).db
            sessionId = some { s with status := .STATS_READY }) ∧
      (∀ msg, mkUserConfirmed sessionId stats now = .error msg →
        confirmStatsPost db userId sessionId stats now =
          ⟨.badRequest msg, db, false⟩ ∧
        ConfirmResp.httpStatus (.badRequest msg) = 400)) := by
  constructor
  · intro hne
    refine ⟨?_, rfl⟩
    simp only [confirmStatsPost, hf]
    simp [huser, hne]
  · intro heq
    constructor
    · intro payload hok
      have hfin : confirmStatsPost db userId sessionId stats now =
          ⟨.okReady,
           updateStatusById
             { db with statsConfirmed := fupd db.statsConfirmed sessionId payload }
             sessionId .STATS_READY, false⟩ := by
        simp only [confirmStatsPost, hf]
        simp [huser, heq, hok]
      rw [hfin]
      refine ⟨rfl, ?_, ?_, ?_, ?_⟩
      · exact fupd_same _ _ _
      · exact (mkUserConfirmed_flags sessionId stats now payload hok).1
      · exact (mkUserConfirmed_flags sessionId stats now payload hok).2
      · rw [findSession_updateStatusById]
        have h2 : findSession
            { db with statsConfirmed := fupd db.statsConfirmed sessionId payload }
            sessionId = some s := hf
        rw [h2]
        rfl
    · intro msg herr
      refine ⟨?_, rfl⟩
      simp only [confirmStatsPost, hf]
      simp [huser, heq, herr]

/-- A session of u4 awaiting manual stats confirmation. -/
def c4Session : Session :=
  { id := "s4", user_id := "u4", rightmove_url := "https://example.test/4"
    rightmove_listing_id := some "4", status := .STATS_NEEDS_CONFIRMATION
    last_extracted_at := none }

/-- A store with `c4Session`. -/
def c4DB : DBState := { emptyDB with sessions := [c4Session] }

/-- The same store but with the session already in STATS_READY. -/
def c4DBReady : DBState :=
  { emptyDB with sessions := [{ c4Session with status := .STATS_READY }] }

/-- A complete user draft. -/
def c4Draft : StatsDraft :=
  { commute_total_minutes := some 30, commute_walk_minutes := some 10
    commute_mode := some "public_transport"
    nearest_station_distance_m := some 400
    nearest_station_name := some "Station"
    supermarket_distance_m := some 300, supermarket_name := some "Shop"
    green_space_distance_m := some 200, green_space_name := some "Park"
    safety_score := some 7, required_confidence := none
    required_source := none, notes := none }

/-- The draft with `commute_mode` missing. -/
def c4DraftBad : StatsDraft := { c4Draft with commute_mode := none }

/-- The confirmed row the valid draft produces. -/
def c4Payload : ConfirmedStats :=
  { property_session_id := "s4", commute_total_minutes := 30
    commute_walk_minutes := 10, commute_mode := "public_transport"
    nearest_station_distance_m := 400, nearest_station_name := "Station"
    supermarket_distance_m := 300, supermarket_name := "Shop"
    green_space_distance_m := 200, green_space_name := "Park"
    safety_score := 7, required_confidence := none, required_source := none
    notes := "Confirmed by user", confirmed_by_user := true
    confirmed_at := "t4" }

/-- Witness for C4: the valid draft confirms from
STATS_NEEDS_CONFIRMATION with `confirmed_by_user = true`; the same call
from STATS_READY is a 409 that writes nothing; a draft missing
`commute_mode` is a 400 that writes nothing. -/
theorem c4_confirm_stats_witness :
    (confirmStatsPost c4DB "u4" "s4" c4Draft "t4").resp = .okReady ∧
    (confirmStatsPost c4DB "u4" "s4" c4Draft "t4").db.statsConfirmed "s4" =
      some c4Payload ∧
    c4Payload.confirmed_by_user = true ∧
    confirmStatsPost c4DBReady "u4" "s4" c4Draft "t4" =
      ⟨.conflict .STATS_READY, c4DBReady, false⟩ ∧
    confirmStatsPost c4DB "u4" "s4" c4DraftBad "t4" =
      ⟨.badRequest "commute_mode required", c4DB, false⟩ := by
  have hok : mkUserConfirmed "s4" c4Draft "t4" = .ok c4Payload := rfl
  have herr : mkUserConfirmed "s4" c4DraftBad "t4" =
      .error "commute_mode required" := rfl
  have h1 := c4_confirm_stats c4DB "u4" "s4" c4Draft "t4" c4Session
    (by decide) rfl
  have h2 := c4_confirm_stats c4DBReady "u4" "s4" c4Draft "t4"
    { c4Session with status := .STATS_READY } (by decide) rfl
  have h3 := c4_confirm_stats c4DB "u4" "s4" c4DraftBad "t4" c4Session
    (by decide) rfl
  exact ⟨((h1.2 rfl).1 c4Payload hok).1, ((h1.2 rfl).1 c4Payload hok).2.1,
         ((h1.2 rfl).1 c4Payload hok).2.2.1, (h2.1 (by decide)).1,
         ((h3.2 rfl).2 _ herr).1⟩

/-- An exhausted quota check returns its failure and the untouched
store. -/
theorem quota_exhausted_eq (userId : String) (a : MeteredAction)
    (db : DBState) (row : UsageCounters) (h : db.counters userId = some row)
    (hge : usedOf a row ≥ limitOf a row) :
    checkAndConsumeQuota userId a db =
      ({ ok := false, used := usedOf a row, limit := limitOf a row }, db) := by
  have hens : ensureUsageRow userId db = db := by
    unfold ensureUsageRow
    rw [h]
  simp only [checkAndConsumeQuota, hens, h]
  simp [hge]

/-- An open quota check consumes one unit and appends the debit row. -/
theorem quota_consumed_eq (userId : String) (a : MeteredAction)
    (db : DBState) (row : UsageCounters) (h : db.counters userId = some row)
    (hlt : usedOf a row < limitOf a row) :
    checkAndConsumeQuota userId a db =
      ({ ok := true, used := usedOf a row + 1, limit := limitOf a row },
       { db with
         counters := fupd db.counters userId (setUsed a row (usedOf a row + 1))
         ledger := db.ledger ++ [usageLedgerEntry userId a] }) := by
  have hens : ensureUsageRow userId db = db := by
    unfold ensureUsageRow
    rw [h]
  simp only [checkAndConsumeQuota, hens, h]
  simp [Nat.not_le.mpr hlt]

/-- A map whose function preserves ids commutes with looking an id
up. -/
theorem find?_map_id_preserving (l : List Session) (sid : String)
    (f : Session → Session) (hid : ∀ s, (f s).id = s.id) :
    (l.map f).find? (fun s => s.id == sid) =
      (l.find? (fun s => s.id == sid)).map f := by
  induction l with
  | nil => rfl
  | cons a l ih =>
    cases hb : (a.id == sid) with
    | true =>
      have hb' : ((f a).id == sid) = true := by
        rw [hid]
        exact hb
      simp only [List.map_cons, List.find?_cons, hb, hb']
      rfl
    | false =>
      have hb' : ((f a).id == sid) = false := by
        rw [hid]
        exact hb
      simp only [List.map_cons, List.find?_cons, hb, hb']
      exact ih

/-- After a guarded transition followed by the status-only revert
write, the looked-up session row carries the written status and is
otherwise untouched. -/
theorem findSession_guard_set (db : DBState) (sid uid : String)
    (fs : List LifecycleStage) (tgt st : LifecycleStage) (s : Session)
    (hf : findSession db sid = some s) (db2 : DBState)
    (hsess : db2.sessions = (setStatusGuarded db sid uid fs tgt).2.sessions) :
    findSession (updateStatusById db2 sid st) sid =
      some { s with status := st } := by
  have hf' : db.sessions.find? (fun s => s.id == sid) = some s := hf
  have hid : (s.id == sid) = true :=
    @List.find?_some _ (fun s => s.id == sid) s db.sessions hf'
  unfold findSession updateStatusById
  rw [hsess]
  show ((db.sessions.map _).map _).find? _ = _
  rw [List.map_map]
  rw [find?_map_id_preserving db.sessions sid _ (fun r => by
    by_cases hm : sessionMatches sid uid fs r = true <;>
      by_cases hi : (r.id == sid) = true <;>
        simp [Function.comp, hm, hi])]
  rw [hf']
  have hid2 : s.id = sid := by
    simpa using hid
  by_cases hm : sessionMatches sid uid fs s = true <;>
    simp [Function.comp, hm, hid, hid2]

/-- Specialization: the guarded transition immediately followed by the
status-only revert write. -/
theorem findSession_guard_revert (db : DBState) (sid uid : String)
    (fs : List LifecycleStage) (tgt st : LifecycleStage) (s : Session)
    (hf : findSession db sid = some s) :
    findSession
      (updateStatusById (setStatusGuarded db sid uid fs tgt).2 sid st) sid =
      some { s with status := st } :=
  findSession_guard_set db sid uid fs tgt st s hf _ rfl

/-- Looking the session up right after a successful guarded transition
(and session-preserving quota writes) sees the transition target. -/
theorem findSession_after_guard (db : DBState) (sid uid : String)
    (fs : List LifecycleStage) (tgt : LifecycleStage) (s : Session)
    (hf : findSession db sid = some s)
    (hm : sessionMatches sid uid fs s = true) (db2 : DBState)
    (hsess : db2.sessions = (setStatusGuarded db sid uid fs tgt).2.sessions) :
    findSession db2 sid = some { s with status := tgt } := by
  have hf' : db.sessions.find? (fun s => s.id == sid) = some s := hf
  unfold findSession
  rw [hsess]
  show (db.sessions.map _).find? _ = _
  rw [find?_map_id_preserving db.sessions sid _ (fun r => by
    by_cases hmr : sessionMatches sid uid fs r = true <;> simp [hmr])]
  rw [hf']
  simp [hm]

/-- Claim C5: for compute-stats and evaluate, any failure discovered
after the guarded transition into the RUNNING state but before the AI
invocation — missing confirmed facts, missing confirmed stats
(evaluate), missing preferences, or exhausted quota — reverts the
session to its exact pre-transition row, returns a 400-class error
(402 with `{used, limit}` for quota exhaustion), leaves counters and
ledger untouched, and makes no AI call.  (For compute-stats the
facts/preferences checks run before the guard, so quota exhaustion is
its only post-guard failure.) -/
theorem c5_post_guard_reverts (env : AIEnv) (db : DBState)
    (uid sid now : String) (s : Session)
    (hf : findSession db sid = some s) (huser : s.user_id = uid) :
    (s.status ∈ evalAllowedFrom → db.factsConfirmed sid = false →
      (evaluatePost env db uid sid now).resp = .listingNotConfirmed ∧
      EvalResp.httpStatus .listingNotConfirmed = 400 ∧
      findSession (evaluatePost env db uid sid now).db sid = some s ∧
      (evaluatePost env db uid sid now).db.counters = db.counters ∧
      (evaluatePost env db uid sid now).db.ledger = db.ledger ∧
      (evaluatePost env db uid sid now).aiCalled = false) ∧
    (s.status ∈ evalAllowedFrom → db.factsConfirmed sid = true →
      db.statsConfirmed sid = none →
      (evaluatePost env db uid sid now).resp = .statsNotReady ∧
      EvalResp.httpStatus .statsNotReady = 400 ∧
      findSession (evaluatePost env db uid sid now).db sid = some s ∧
      (evaluatePost env db uid sid now).db.counters = db.counters ∧
      (evaluatePost env db uid sid now).db.ledger = db.ledger ∧
      (evaluatePost env db uid sid now).aiCalled = false) ∧
    (∀ cs, s.status ∈ evalAllowedFrom → db.factsConfirmed sid = true →
      db.statsConfirmed sid = some cs → db.preferences uid = none →
      (evaluatePost env db uid sid now).resp = .prefsNotFound ∧
      EvalResp.httpStatus .prefsNotFound = 400 ∧
      findSession (evaluatePost env db uid sid now).db sid = some s ∧
      (evaluatePost env db uid sid now).db.counters = db.counters ∧
      (evaluatePost env db uid sid now).db.ledger = db.ledger ∧
      (evaluatePost env db uid sid now).aiCalled = false) ∧
    (∀ cs prefs row, s.status ∈ evalAllowedFrom →
      db.factsConfirmed sid = true → db.statsConfirmed sid = some cs →
      db.preferences uid = some prefs → db.counters uid = some row →
      usedOf .evaluate row ≥ limitOf .evaluate row →
      (evaluatePost env db uid sid now).resp =
        .quotaExceeded (usedOf .evaluate row) (limitOf .evaluate row) ∧
      EvalResp.httpStatus
        (.quotaExceeded (usedOf .evaluate row) (limitOf .evaluate row)) = 402 ∧
      findSession (evaluatePost env db uid sid now).db sid = some s ∧
      (evaluatePost env db uid sid now).db.counters = db.counters ∧
      (evaluatePost env db uid sid now).db.ledger = db.ledger ∧
      (evaluatePost env db uid sid now).aiCalled = false) ∧
    (∀ force prefs row, s.status ∈ statsAllowedFrom force →
      db.factsConfirmed sid = true → db.preferences uid = some prefs →
      (checkMinimumPreferences prefs).ok = true →
      db.counters uid = some row →
      usedOf .stats row ≥ limitOf .stats row →
      (statsPost env db uid sid force now).resp =
        .quotaExceeded (usedOf .stats row) (limitOf .stats row) ∧
      StatsResp.httpStatus
        (.quotaExceeded (usedOf .stats row) (limitOf .stats row)) = 402 ∧
      findSession (statsPost env db uid sid force now).db sid = some s ∧
      (statsPost env db uid sid force now).db.counters = db.counters ∧
      (statsPost env db uid sid force now).db.ledger = db.ledger ∧
      (statsPost env db uid sid force now).aiCalled = false) := by
  have hf' : db.sessions.find? (fun x => x.id == sid) = some s := hf
  have hsid : s.id = sid := by
    simpa using (@List.find?_some _ (fun x => x.id == sid) s db.sessions hf')
  have hmem : s ∈ db.sessions := List.mem_of_find?_eq_some hf'
  have hany : ∀ (fs' : List LifecycleStage), s.status ∈ fs' →
      ∀ tgt, (setStatusGuarded db sid uid fs' tgt).1 = true := by
    intro fs' hst tgt
    show db.sessions.any (sessionMatches sid uid fs') = true
    rw [List.any_eq_true]
    exact ⟨s, hmem, decide_eq_true ⟨hsid, huser, hst⟩⟩
  refine ⟨?_, ?_, ?_, ?_, ?_⟩
  · intro hst hfc
    have hg1 := hany evalAllowedFrom hst .EVAL_RUNNING
    have e1 : (setStatusGuarded db sid uid evalAllowedFrom
        .EVAL_RUNNING).2.factsConfirmed = db.factsConfirmed := rfl
    have hout : evaluatePost env db uid sid now =
        ⟨.listingNotConfirmed,
         updateStatusById
          (setStatusGuarded db sid uid evalAllowedFrom .EVAL_RUNNING).2
          sid s.status, false⟩ := by
      simp only [evaluatePost, hf]
      simp [huser, hst, hg1, e1, hfc]
    rw [hout]
    exact ⟨rfl, rfl, findSession_guard_revert db sid uid _ _ s.status s hf,
           rfl, rfl, rfl⟩
  · intro hst hfc hsc
    have hg1 := hany evalAllowedFrom hst .EVAL_RUNNING
    have e1 : (setStatusGuarded db sid uid evalAllowedFrom
        .EVAL_RUNNING).2.factsConfirmed = db.factsConfirmed := rfl
    have e2 : (setStatusGuarded db sid uid evalAllowedFrom
        .EVAL_RUNNING).2.statsConfirmed = db.statsConfirmed := rfl
    have hout : evaluatePost env db uid sid now =
        ⟨.statsNotReady,
         updateStatusById
          (setStatusGuarded db sid uid evalAllowedFrom .EVAL_RUNNING).2
          sid s.status, false⟩ := by
      simp only [evaluatePost, hf]
      simp [huser, hst, hg1, e1, hfc, e2, hsc]
    rw [hout]
    exact ⟨rfl, rfl, findSession_guard_revert db sid uid _ _ s.status s hf,
           rfl, rfl, rfl⟩
  · intro cs hst hfc hsc hp
    have hg1 := hany evalAllowedFrom hst .EVAL_RUNNING
    have e1 : (setStatusGuarded db sid uid evalAllowedFrom
        .EVAL_RUNNING).2.factsConfirmed = db.factsConfirmed := rfl
    have e2 : (setStatusGuarded db sid uid evalAllowedFrom
        .EVAL_RUNNING).2.statsConfirmed = db.statsConfirmed := rfl
    have e3 : (setStatusGuarded db sid uid evalAllowedFrom
        .EVAL_RUNNING).2.preferences = db.preferences := rfl
    have hout : evaluatePost env db uid sid now =
        ⟨.prefsNotFound,
         updateStatusById
          (setStatusGuarded db sid uid evalAllowedFrom .EVAL_RUNNING).2
          sid s.status, false⟩ := by
      simp only [evaluatePost, hf]
      simp [huser, hst, hg1, e1, hfc, e2, hsc, e3, hp]
    rw [hout]
    exact ⟨rfl, rfl, findSession_guard_revert db sid uid _ _ s.status s hf,
           rfl, rfl, rfl⟩
  · intro cs prefs row hst hfc hsc hp hrow hge
    have hg1 := hany evalAllowedFrom hst .EVAL_RUNNING
    have e1 : (setStatusGuarded db sid uid evalAllowedFrom
        .EVAL_RUNNING).2.factsConfirmed = db.factsConfirmed := rfl
    have e2 : (setStatusGuarded db sid uid evalAllowedFrom
        .EVAL_RUNNING).2.statsConfirmed = db.statsConfirmed := rfl
    have e3 : (setStatusGuarded db sid uid evalAllowedFrom
        .EVAL_RUNNING).2.preferences = db.preferences := rfl
    have hq := quota_exhausted_eq uid .evaluate
      (setStatusGuarded db sid uid evalAllowedFrom .EVAL_RUNNING).2 row
      hrow hge
    have hout : evaluatePost env db uid sid now =
        ⟨.quotaExceeded (usedOf .evaluate row) (limitOf .evaluate row),
         updateStatusById
          (setStatusGuarded db sid uid evalAllowedFrom .EVAL_RUNNING).2
          sid s.status, false⟩ := by
      simp only [evaluatePost, hf]
      simp [huser, hst, hg1, e1, hfc, e2, hsc, e3, hp, hq]
    rw [hout]
    exact ⟨rfl, rfl, findSession_guard_revert db sid uid _ _ s.status s hf,
           rfl, rfl, rfl⟩
  · intro force prefs row hst hfc hp hmin hrow hge
    have hg1 := hany (statsAllowedFrom force) hst .STATS_RUNNING
    have hq := quota_exhausted_eq uid .stats
      (setStatusGuarded db sid uid (statsAllowedFrom force) .STATS_RUNNING).2
      row hrow hge
    have hout : statsPost env db uid sid force now =
        ⟨.quotaExceeded (usedOf .stats row) (limitOf .stats row),
         updateStatusById
          (setStatusGuarded db sid uid (statsAllowedFrom force)
            .STATS_RUNNING).2 sid s.status, false⟩ := by
      simp only [statsPost, hf]
      simp [huser, hfc, hp, hmin, hg1, hq]
    rw [hout]
    exact ⟨rfl, rfl, findSession_guard_revert db sid uid _ _ s.status s hf,
           rfl, rfl, rfl⟩

/-- A session of u5 in STATS_READY with no confirmed facts on
record. -/
def c5Session : Session :=
  { id := "s5", user_id := "u5", rightmove_url := "https://example.test/5"
    rightmove_listing_id := some "5", status := .STATS_READY
    last_extracted_at := none }

/-- A store with only `c5Session` (no facts, stats, prefs). -/
def c5DB : DBState := { emptyDB with sessions := [c5Session] }

/-- A session of u5 in CONFIRMED awaiting compute-stats. -/
def c5StatsSession : Session :=
  { id := "s5q", user_id := "u5", rightmove_url := "https://example.test/5q"
    rightmove_listing_id := some "5q", status := .CONFIRMED
    last_extracted_at := none }

/-- Counters with the stats quota exhausted (3 of 3). -/
def c5QRow : UsageCounters :=
  { extract_used := 0, extract_limit := 0, stats_used := 3, stats_limit := 3
    evaluate_used := 0, evaluate_limit := 0 }

/-- A store where everything is in place for compute-stats except the
stats quota. -/
def c5QDB : DBState :=
  { emptyDB with
    sessions := [c5StatsSession]
    factsConfirmed := fun sid => sid == "s5q"
    preferences := fupd emptyDB.preferences "u5" c3Prefs
    counters := fupd emptyDB.counters "u5" c5QRow }

/-- Witness for C5: evaluate on a session without confirmed facts
answers 400, restores the STATS_READY row and calls no AI; compute-
stats with the stats quota at 3 of 3 answers 402 with `{used:3,
limit:3}`, restores the CONFIRMED row, and leaves the counters
untouched. -/
theorem c5_post_guard_reverts_witness :
    (evaluatePost c3Env c5DB "u5" "s5" "t5").resp = .listingNotConfirmed ∧
    findSession (evaluatePost c3Env c5DB "u5" "s5" "t5").db "s5" =
      some c5Session ∧
    (evaluatePost c3Env c5DB "u5" "s5" "t5").aiCalled = false ∧
    (statsPost c3Env c5QDB "u5" "s5q" false "t5").resp =
      .quotaExceeded 3 3 ∧
    findSession (statsPost c3Env c5QDB "u5" "s5q" false "t5").db "s5q" =
      some c5StatsSession ∧
    (statsPost c3Env c5QDB "u5" "s5q" false "t5").db.counters =
      c5QDB.counters := by
  have h1 := c5_post_guard_reverts c3Env c5DB "u5" "s5" "t5" c5Session
    (by decide) rfl
  have h2 := c5_post_guard_reverts c3Env c5QDB "u5" "s5q" "t5" c5StatsSession
    (by decide) rfl
  have ha := h1.1 (by decide) (by decide)
  have hb := h2.2.2.2.2 false c3Prefs c5QRow (by decide) (by decide)
    (by decide) (by decide) (by decide) (by decide)
  exact ⟨ha.1, ha.2.2.1, ha.2.2.2.2.2, hb.1, hb.2.2.1, hb.2.2.2.1⟩

/-- Counters for u6 with extract quota available. -/
def c6Row : UsageCounters :=
  { extract_used := 0, extract_limit := 5, stats_used := 0, stats_limit := 0
    evaluate_used := 0, evaluate_limit := 0 }

/-- A store for u6 with no sessions yet. -/
def c6DB : DBState :=
  { emptyDB with counters := fupd emptyDB.counters "u6" c6Row }

/-- Counterexample to claim C6 as stated: in the extract orchestrator,
after quota is spent and with the AI API credential absent, the session
does not transition to any FAILED state and no 500-class error is
returned — `callOpenAIWithWeb` substitutes a warnings-only facts object
and the full pipeline completes with HTTP 200, the session ending in
NEEDS_CONFIRMATION. -/
theorem c6_extract_never_fails_counterexample :
    (extractPost c3Env true c6DB "u6"
        "https://www.rightmove.co.uk/properties/170645465" "n6" "t6").resp =
      .okFull "n6" (some "170645465") ∧
    ExtractResp.httpStatus
      (extractPost c3Env true c6DB "u6"
        "https://www.rightmove.co.uk/properties/170645465" "n6" "t6").resp =
      200 ∧
    ¬(ExtractResp.httpStatus
        (extractPost c3Env true c6DB "u6"
          "https://www.rightmove.co.uk/properties/170645465" "n6" "t6").resp =
        500) ∧
    (findSession
        (extractPost c3Env true c6DB "u6"
          "https://www.rightmove.co.uk/properties/170645465" "n6" "t6").db
        "n6").map (fun r => r.status) = some .NEEDS_CONFIRMATION := by
  decide

/-- Claim C6 (amended: restricted to the compute-stats and evaluate
orchestrators — extract substitutes a warnings-only facts object and
completes normally on a missing credential or unusable output — and
with the proviso that when the greedy brace-span fallback finds a
candidate that fails to parse, the thrown error returns 500 with quota
kept but leaves the session in the RUNNING state): after quota has been
spent, a missing AI credential, a model output the tolerant parse
returns null on, or a parsed value without the required top-level shape
transitions the session to the stage's FAILED state and returns a
500-class error, with the already-spent quota not refunded. -/
theorem c6_failed_after_quota (env : AIEnv) (db : DBState)
    (uid sid now : String) (s : Session)
    (hf : findSession db sid = some s) (huser : s.user_id = uid) :
    (∀ force prefs row, s.status ∈ statsAllowedFrom force →
      db.factsConfirmed sid = true → db.preferences uid = some prefs →
      (checkMinimumPreferences prefs).ok = true →
      db.counters uid = some row →
      usedOf .stats row < limitOf .stats row →
      ((env.apiKeyPresent = false →
         (statsPost env db uid sid force now).resp = .apiKeyMissing ∧
         StatsResp.httpStatus .apiKeyMissing = 500 ∧
         findSession (statsPost env db uid sid force now).db sid =
           some { s with status := .STATS_FAILED } ∧
         (statsPost env db uid sid force now).db.counters uid =
           some (setUsed .stats row (usedOf .stats row + 1)) ∧
         (statsPost env db uid sid force now).db.ledger =
           db.ledger ++ [usageLedgerEntry uid .stats]) ∧
       (env.apiKeyPresent = true →
         parseJsonLoose env.jsonParse env.outputText = .ok none →
         (statsPost env db uid sid force now).resp = .aiUnparseable ∧
         StatsResp.httpStatus .aiUnparseable = 500 ∧
         findSession (statsPost env db uid sid force now).db sid =
           some { s with status := .STATS_FAILED } ∧
         (statsPost env db uid sid force now).db.counters uid =
           some (setUsed .stats row (usedOf .stats row + 1))) ∧
       (∀ v, env.apiKeyPresent = true →
         parseJsonLoose env.jsonParse env.outputText = .ok (some v) →
         (!(jsTruthy v) || !(jsIsObjectType v) ||
          !(match jopt (v.get? "fields") with
            | some f => jsTruthy f
            | none => false)) = true →
         (statsPost env db uid sid force now).resp = .aiUnparseable ∧
         findSession (statsPost env db uid sid force now).db sid =
           some { s with status := .STATS_FAILED } ∧
         (statsPost env db uid sid force now).db.counters uid =
           some (setUsed .stats row (usedOf .stats row + 1))) ∧
       (env.apiKeyPresent = true →
         parseJsonLoose env.jsonParse env.outputText = .error () →
         (statsPost env db uid sid force now).resp = .serverError ∧
         StatsResp.httpStatus .serverError = 500 ∧
         findSession (statsPost env db uid sid force now).db sid =
           some { s with status := .STATS_RUNNING } ∧
         (statsPost env db uid sid force now).db.counters uid =
           some (setUsed .stats row (usedOf .stats row + 1))))) ∧
    (∀ cs prefs row, s.status ∈ evalAllowedFrom →
      db.factsConfirmed sid = true → db.statsConfirmed sid = some cs →
      db.preferences uid = some prefs → db.counters uid = some row →
      usedOf .evaluate row < limitOf .evaluate row →
      ((env.apiKeyPresent = false →
         (evaluatePost env db uid sid now).resp = .apiKeyMissing ∧
         EvalResp.httpStatus .apiKeyMissing = 500 ∧
         findSession (evaluatePost env db uid sid now).db sid =
           some { s with status := .EVAL_FAILED } ∧
         (evaluatePost env db uid sid now).db.counters uid =
           some (setUsed .evaluate row (usedOf .evaluate row + 1)) ∧
         (evaluatePost env db uid sid now).db.ledger =
           db.ledger ++ [usageLedgerEntry uid .evaluate]) ∧
       (env.apiKeyPresent = true →
         parseJsonLoose env.jsonParse env.outputText = .ok none →
         (evaluatePost env db uid sid now).resp = .aiNonJson ∧
         EvalResp.httpStatus .aiNonJson = 500 ∧
         findSession (evaluatePost env db uid sid now).db sid =
           some { s with status := .EVAL_FAILED } ∧
         (evaluatePost env db uid sid now).db.counters uid =
           some (setUsed .evaluate row (usedOf .evaluate row + 1))) ∧
       (∀ v, env.apiKeyPresent = true →
         parseJsonLoose env.jsonParse env.outputText = .ok (some v) →
         (!(jsTruthy v) || !(jsIsObjectType v)) = true →
         (evaluatePost env db uid sid now).resp = .aiNonJson ∧
         findSession (evaluatePost env db uid sid now).db sid =
           some { s with status := .EVAL_FAILED } ∧
         (evaluatePost env db uid sid now).db.counters uid =
           some (setUsed .evaluate row (usedOf .evaluate row + 1))) ∧
       (env.apiKeyPresent = true →
         parseJsonLoose env.jsonParse env.outputText = .error () →
         (evaluatePost env db uid sid now).resp = .serverError ∧
         EvalResp.httpStatus .serverError = 500 ∧
         findSession (evaluatePost env db uid sid now).db sid =
           some { s with status := .EVAL_RUNNING } ∧
         (evaluatePost env db uid sid now).db.counters uid =
           some (setUsed .evaluate row (usedOf .evaluate row + 1))))) := by
  have hf' : db.sessions.find? (fun x => x.id == sid) = some s := hf
  have hsid : s.id = sid := by
    simpa using (@List.find?_some _ (fun x => x.id == sid) s db.sessions hf')
  have hmem : s ∈ db.sessions := List.mem_of_find?_eq_some hf'
  constructor
  · intro force prefs row hst hfc hp hmin hrow hlt
    have hmatch : sessionMatches sid uid (statsAllowedFrom force) s = true :=
      decide_eq_true ⟨hsid, huser, hst⟩
    have hg1 : (setStatusGuarded db sid uid (statsAllowedFrom force)
        .STATS_RUNNING).1 = true := by
      show db.sessions.any _ = true
      rw [List.any_eq_true]
      exact ⟨s, hmem, hmatch⟩
    have hq := quota_consumed_eq uid .stats
      (setStatusGuarded db sid uid (statsAllowedFrom force) .STATS_RUNNING).2
      row hrow hlt
    have ec : (setStatusGuarded db sid uid (statsAllowedFrom force)
        .STATS_RUNNING).2.counters = db.counters := rfl
    have el : (setStatusGuarded db sid uid (statsAllowedFrom force)
        .STATS_RUNNING).2.ledger = db.ledger := rfl
    refine ⟨?_, ?_, ?_, ?_⟩
    · intro hkey
      have hout : statsPost env db uid sid force now =
          ⟨.apiKeyMissing,
           updateStatusById
             { (setStatusGuarded db sid uid (statsAllowedFrom force)
                 .STATS_RUNNING).2 with
               counters := fupd db.counters uid
                 (setUsed .stats row (usedOf .stats row + 1))
               ledger := db.ledger ++ [usageLedgerEntry uid .stats] }
             sid .STATS_FAILED, false⟩ := by
        simp only [statsPost, hf]
        simp [huser, hfc, hp, hmin, hg1, hq, ec, el, hkey]
      rw [hout]
      exact ⟨rfl, rfl,
             findSession_guard_set db sid uid _ _ .STATS_FAILED s hf _ rfl,
             fupd_same _ _ _, rfl⟩
    · intro hkey hparse
      have hout : statsPost env db uid sid force now =
          ⟨.aiUnparseable,
           updateStatusById
             { (setStatusGuarded db sid uid (statsAllowedFrom force)
                 .STATS_RUNNING).2 with
               counters := fupd db.counters uid
                 (setUsed .stats row (usedOf .stats row + 1))
               ledger := db.ledger ++ [usageLedgerEntry uid .stats] }
             sid .STATS_FAILED, true⟩ := by
        simp only [statsPost, hf]
        simp [huser, hfc, hp, hmin, hg1, hq, ec, el, hkey, hparse, jsTruthy]
      rw [hout]
      exact ⟨rfl, rfl,
             findSession_guard_set db sid uid _ _ .STATS_FAILED s hf _ rfl,
             fupd_same _ _ _⟩
    · intro v hkey hparse hshape
      have hout : statsPost env db uid sid force now =
          ⟨.aiUnparseable,
           updateStatusById
             { (setStatusGuarded db sid uid (statsAllowedFrom force)
                 .STATS_RUNNING).2 with
               counters := fupd db.counters uid
                 (setUsed .stats row (usedOf .stats row + 1))
               ledger := db.ledger ++ [usageLedgerEntry uid .stats] }
             sid .STATS_FAILED, true⟩ := by
        simp only [statsPost, hf]
        simp [huser, hfc, hp, hmin, hg1, hq, ec, el, hkey, hparse]
        intro h1 h2 h3
        simp [h1, h2, h3] at hshape
      rw [hout]
      exact ⟨rfl,
             findSession_guard_set db sid uid _ _ .STATS_FAILED s hf _ rfl,
             fupd_same _ _ _⟩
    · intro hkey hparse
      have hout : statsPost env db uid sid force now =
          ⟨.serverError,
           { (setStatusGuarded db sid uid (statsAllowedFrom force)
               .STATS_RUNNING).2 with
             counters := fupd db.counters uid
               (setUsed .stats row (usedOf .stats row + 1))
             ledger := db.ledger ++ [usageLedgerEntry uid .stats] },
           true⟩ := by
        simp only [statsPost, hf]
        simp [huser, hfc, hp, hmin, hg1, hq, ec, el, hkey, hparse]
      rw [hout]
      refine ⟨rfl, rfl, ?_, fupd_same _ _ _⟩
      exact findSession_after_guard db sid uid _ .STATS_RUNNING s hf
        hmatch _ rfl
  · intro cs prefs row hst hfc hsc hp hrow hlt
    have hmatch : sessionMatches sid uid evalAllowedFrom s = true :=
      decide_eq_true ⟨hsid, huser, hst⟩
    have hg1 : (setStatusGuarded db sid uid evalAllowedFrom
        .EVAL_RUNNING).1 = true := by
      show db.sessions.any _ = true
      rw [List.any_eq_true]
      exact ⟨s, hmem, hmatch⟩
    have hq := quota_consumed_eq uid .evaluate
      (setStatusGuarded db sid uid evalAllowedFrom .EVAL_RUNNING).2
      row hrow hlt
    have ec : (setStatusGuarded db sid uid evalAllowedFrom
        .EVAL_RUNNING).2.counters = db.counters := rfl
    have el : (setStatusGuarded db sid uid evalAllowedFrom
        .EVAL_RUNNING).2.ledger = db.ledger := rfl
    have e1 : (setStatusGuarded db sid uid evalAllowedFrom
        .EVAL_RUNNING).2.factsConfirmed = db.factsConfirmed := rfl
    have e2 : (setStatusGuarded db sid uid evalAllowedFrom
        .EVAL_RUNNING).2.statsConfirmed = db.statsConfirmed := rfl
    have e3 : (setStatusGuarded db sid uid evalAllowedFrom
        .EVAL_RUNNING).2.preferences = db.preferences := rfl
    refine ⟨?_, ?_, ?_, ?_⟩
    · intro hkey
      have hout : evaluatePost env db uid sid now =
          ⟨.apiKeyMissing,
           updateStatusById
             { (setStatusGuarded db sid uid evalAllowedFrom
                 .EVAL_RUNNING).2 with
               counters := fupd db.counters uid
                 (setUsed .evaluate row (usedOf .evaluate row + 1))
               ledger := db.ledger ++ [usageLedgerEntry uid .evaluate] }
             sid .EVAL_FAILED, false⟩ := by
        simp only [evaluatePost, hf]
        simp [huser, hst, hg1, e1, hfc, e2, hsc, e3, hp, hq, ec, el, hkey]
      rw [hout]
      exact ⟨rfl, rfl,
             findSession_guard_set db sid uid _ _ .EVAL_FAILED s hf _ rfl,
             fupd_same _ _ _, rfl⟩
    · intro hkey hparse
      have hout : evaluatePost env db uid sid now =
          ⟨.aiNonJson,
           updateStatusById
             { (setStatusGuarded db sid uid evalAllowedFrom
                 .EVAL_RUNNING).2 with
               counters := fupd db.counters uid
                 (setUsed .evaluate row (usedOf .evaluate row + 1))
               ledger := db.ledger ++ [usageLedgerEntry uid .evaluate] }
             sid .EVAL_FAILED, true⟩ := by
        simp only [evaluatePost, hf]
        simp [huser, hst, hg1, e1, hfc, e2, hsc, e3, hp, hq, ec, el, hkey, hparse, jsTruthy]
      rw [hout]
      exact ⟨rfl, rfl,
             findSession_guard_set db sid uid _ _ .EVAL_FAILED s hf _ rfl,
             fupd_same _ _ _⟩
    · intro v hkey hparse hshape
      have hout : evaluatePost env db uid sid now =
          ⟨.aiNonJson,
           updateStatusById
             { (setStatusGuarded db sid uid evalAllowedFrom
                 .EVAL_RUNNING).2 with
               counters := fupd db.counters uid
                 (setUsed .evaluate row (usedOf .evaluate row + 1))
               ledger := db.ledger ++ [usageLedgerEntry uid .evaluate] }
             sid .EVAL_FAILED, true⟩ := by
        simp only [evaluatePost, hf]
        simp [huser, hst, hg1, e1, hfc, e2, hsc, e3, hp, hq, ec, el, hkey, hparse]
        intro h1
        simp only [h1, Bool.not_true, Bool.false_or] at hshape
        simpa using hshape
      rw [hout]
      exact ⟨rfl,
             findSession_guard_set db sid uid _ _ .EVAL_FAILED s hf _ rfl,
             fupd_same _ _ _⟩
    · intro hkey hparse
      have hout : evaluatePost env db uid sid now =
          ⟨.serverError,
           { (setStatusGuarded db sid uid evalAllowedFrom .EVAL_RUNNING).2 with
             counters := fupd db.counters uid
               (setUsed .evaluate row (usedOf .evaluate row + 1))
             ledger := db.ledger ++ [usageLedgerEntry uid .evaluate] },
           true⟩ := by
        simp only [evaluatePost, hf]
        simp [huser, hst, hg1, e1, hfc, e2, hsc, e3, hp, hq, ec, el, hkey, hparse]
      rw [hout]
      refine ⟨rfl, rfl, ?_, fupd_same _ _ _⟩
      exact findSession_after_guard db sid uid _ .EVAL_RUNNING s hf
        hmatch _ rfl

/-- A session of u6 in CONFIRMED awaiting compute-stats. -/
def c6WSession : Session :=
  { id := "s6w", user_id := "u6", rightmove_url := "https://example.test/6"
    rightmove_listing_id := some "6", status := .CONFIRMED
    last_extracted_at := none }

/-- Counters for u6 with stats quota open (2 of 3). -/
def c6WRow : UsageCounters :=
  { extract_used := 0, extract_limit := 0, stats_used := 2, stats_limit := 3
    evaluate_used := 0, evaluate_limit := 0 }

/-- A store where compute-stats reaches the AI step for u6. -/
def c6WDB : DBState :=
  { emptyDB with
    sessions := [c6WSession]
    factsConfirmed := fun sid => sid == "s6w"
    preferences := fupd emptyDB.preferences "u6" c3Prefs
    counters := fupd emptyDB.counters "u6" c6WRow }

/-- Witness for C6 (amended): compute-stats with the credential absent
lands the session in STATS_FAILED with a 500-class response, the quota
already spent (3 of 3) and the usage ledger row kept. -/
theorem c6_failed_after_quota_witness :
    (statsPost c3Env c6WDB "u6" "s6w" false "t6").resp = .apiKeyMissing ∧
    findSession (statsPost c3Env c6WDB "u6" "s6w" false "t6").db "s6w" =
      some { c6WSession with status := .STATS_FAILED } ∧
    (statsPost c3Env c6WDB "u6" "s6w" false "t6").db.counters "u6" =
      some (setUsed .stats c6WRow (usedOf .stats c6WRow + 1)) ∧
    (statsPost c3Env c6WDB "u6" "s6w" false "t6").db.ledger =
      c6WDB.ledger ++ [usageLedgerEntry "u6" .stats] := by
  have h := c6_failed_after_quota c3Env c6WDB "u6" "s6w" "t6" c6WSession
    (by decide) rfl
  have ha := (h.1 false c3Prefs c6WRow (by decide) (by decide) (by decide)
    (by decide) (by decide) (by decide)).1 rfl
  exact ⟨ha.1, ha.2.2.1, ha.2.2.2.1, ha.2.2.2.2⟩

/-- One hundred saved sessions for u7. -/
def c7Sessions : List Session :=
  (List.range 100).map (fun i =>
    { id := toString i, user_id := "u7"
      rightmove_url := "https://example.test/old"
      rightmove_listing_id := some (toString i), status := .CREATED
      last_extracted_at := none })

/-- Counters for u7 with extract quota open (0 of 5). -/
def c7Row : UsageCounters :=
  { extract_used := 0, extract_limit := 5, stats_used := 0, stats_limit := 0
    evaluate_used := 0, evaluate_limit := 0 }

/-- A store where u7 sits exactly at the 100-session cap. -/
def c7DB : DBState :=
  { emptyDB with
    sessions := c7Sessions
    counters := fupd emptyDB.counters "u7" c7Row }

/-- Counterexample to claim C7 as stated: at the 100-session cap,
extract on a new reference does fail with MAX_LINKS_REACHED (403,
limit 100), but the failure is detected only after the quota step — the
extract usage counter has been incremented from 0 to 1 and a usage
ledger row appended by the failed call, so the system is not left
exactly as it was. -/
theorem c7_quota_spent_before_cap_counterexample :
    (extractPost c3Env true c7DB "u7"
        "https://www.rightmove.co.uk/properties/170645465" "n7" "t7").resp =
      .maxLinks 100 ∧
    ExtractResp.httpStatus
      (extractPost c3Env true c7DB "u7"
        "https://www.rightmove.co.uk/properties/170645465" "n7" "t7").resp =
      403 ∧
    ((extractPost c3Env true c7DB "u7"
        "https://www.rightmove.co.uk/properties/170645465" "n7" "t7").db.counters
        "u7").map (fun r => r.extract_used) = some 1 ∧
    ¬(((extractPost c3Env true c7DB "u7"
        "https://www.rightmove.co.uk/properties/170645465" "n7" "t7").db.counters
        "u7").map (fun r => r.extract_used) = some 0) ∧
    (extractPost c3Env true c7DB "u7"
        "https://www.rightmove.co.uk/properties/170645465" "n7" "t7").db.ledger =
      [usageLedgerEntry "u7" .extract] ∧
    ¬((extractPost c3Env true c7DB "u7"
        "https://www.rightmove.co.uk/properties/170645465" "n7" "t7").db.ledger =
      []) := by
  decide

/-- Claim C7 (amended): for a user who already has 100 sessions,
extract on a new listing reference fails with MAX_LINKS_REACHED
(403-class, limit 100) and creates no session row and writes no raw
facts — but the cap is checked only after the quota step and the AI
call, so the failed call increments the extract usage counter, appends
one usage ledger row, and has already invoked the AI collaborator when
a credential is present. -/
theorem c7_max_links (env : AIEnv) (db : DBState)
    (uid url newId now : String) (lid : String) (row : UsageCounters)
    (facts : JVal)
    (hurl : parseRightmoveListingId url = some lid)
    (hnew : db.sessions.find? (fun s =>
      s.user_id == uid && s.rightmove_listing_id == some lid) = none)
    (hcap : underMaxLinks db uid = false)
    (hrow : db.counters uid = some row)
    (hlt : usedOf .extract row < limitOf .extract row)
    (hai : callOpenAIWithWeb env = .ok facts) :
    (extractPost env true db uid url newId now).resp = .maxLinks 100 ∧
    ExtractResp.httpStatus (.maxLinks 100) = 403 ∧
    (extractPost env true db uid url newId now).db.sessions = db.sessions ∧
    (extractPost env true db uid url newId now).db.factsRaw = db.factsRaw ∧
    (extractPost env true db uid url newId now).db.counters uid =
      some (setUsed .extract row (usedOf .extract row + 1)) ∧
    (extractPost env true db uid url newId now).db.ledger =
      db.ledger ++ [usageLedgerEntry uid .extract] ∧
    (extractPost env true db uid url newId now).aiCalled =
      env.apiKeyPresent := by
  have hq := quota_consumed_eq uid .extract db row hrow hlt
  have hout : extractPost env true db uid url newId now =
      ⟨.maxLinks 100,
       { db with
         counters := fupd db.counters uid
           (setUsed .extract row (usedOf .extract row + 1))
         ledger := db.ledger ++ [usageLedgerEntry uid .extract] },
       env.apiKeyPresent⟩ := by
    have hcap2 : ¬ ((db.sessions.filter
        (fun s => s.user_id == uid)).length < 100) := by
      simpa [underMaxLinks] using hcap
    simp only [extractPost, hq]
    simp [hurl, hai, upsertPropertySession, underMaxLinks, hnew, hcap2]
  rw [hout]
  exact ⟨rfl, rfl, rfl, rfl, fupd_same _ _ _, rfl, rfl⟩

/-- Witness for C7 (amended): at the cap, the run answers 403 MAX_LINKS
with no session inserted, while the extract counter moves to 1 and the
usage debit is in the ledger. -/
theorem c7_max_links_witness :
    (extractPost c3Env true c7DB "u7"
        "https://www.rightmove.co.uk/properties/170645465" "n7b" "t7").resp =
      .maxLinks 100 ∧
    (extractPost c3Env true c7DB "u7"
        "https://www.rightmove.co.uk/properties/170645465" "n7b" "t7").db.sessions =
      c7DB.sessions ∧
    (extractPost c3Env true c7DB "u7"
        "https://www.rightmove.co.uk/properties/170645465" "n7b" "t7").db.counters
      "u7" = some (setUsed .extract c7Row (usedOf .extract c7Row + 1)) ∧
    (extractPost c3Env true c7DB "u7"
        "https://www.rightmove.co.uk/properties/170645465" "n7b" "t7").db.ledger =
      c7DB.ledger ++ [usageLedgerEntry "u7" .extract] := by
  have h := c7_max_links c3Env c7DB "u7"
    "https://www.rightmove.co.uk/properties/170645465" "n7b" "t7"
    "170645465" c7Row noKeyFacts (by decide) (by decide) (by decide)
    (by decide) (by decide) rfl
  exact ⟨h.1, h.2.2.1, h.2.2.2.2.1, h.2.2.2.2.2.1⟩

/-- The extract-route status write updates the looked-up row's status
and timestamp. -/
theorem findSession_updateSessionStatus (db : DBState) (sid : String)
    (st : LifecycleStage) (now : String) (s : Session)
    (hf : findSession db sid = some s) :
    findSession (updateSessionStatus db sid st now) sid =
      some { s with status := st, last_extracted_at := some now } := by
  have hf' : db.sessions.find? (fun x => x.id == sid) = some s := hf
  have hid : (s.id == sid) = true :=
    @List.find?_some _ (fun x => x.id == sid) s db.sessions hf'
  have hid2 : s.id = sid := by
    simpa using hid
  unfold findSession updateSessionStatus
  rw [find?_map_id_preserving db.sessions sid _ (fun r => by
    by_cases hi : (r.id == sid) = true <;> simp [hi])]
  rw [hf']
  simp [hid, hid2]

/-- Claim C8: re-running extract's full stage for an already-known
`(user, listingId)` reference returns the existing session row — no
row is inserted and the 100-session cap is never consulted (the
statement has no hypothesis on the session count) — while the raw
facts artifact is re-written by idempotent upsert keyed on the session
id, the pipeline re-runs the status writes ending in
NEEDS_CONFIRMATION, and one unit of extract quota is consumed again. -/
theorem c8_extract_idempotent (env : AIEnv) (db : DBState)
    (uid url newId now lid : String) (s : Session) (row : UsageCounters)
    (facts : JVal)
    (hurl : parseRightmoveListingId url = some lid)
    (hfind : db.sessions.find? (fun t =>
      t.user_id == uid && t.rightmove_listing_id == some lid) = some s)
    (hfid : findSession db s.id = some s)
    (hrow : db.counters uid = some row)
    (hlt : usedOf .extract row < limitOf .extract row)
    (hai : callOpenAIWithWeb env = .ok facts) :
    (extractPost env true db uid url newId now).resp =
      .okFull s.id (some lid) ∧
    ExtractResp.httpStatus (.okFull s.id (some lid)) = 200 ∧
    (extractPost env true db uid url newId now).db.sessions.length =
      db.sessions.length ∧
    findSession (extractPost env true db uid url newId now).db s.id =
      some { s with status := .NEEDS_CONFIRMATION,
                    last_extracted_at := some now } ∧
    (extractPost env true db uid url newId now).db.factsRaw s.id =
      some (mkFactsRow s.id facts) ∧
    (extractPost env true db uid url newId now).db.counters uid =
      some (setUsed .extract row (usedOf .extract row + 1)) ∧
    (extractPost env true db uid url newId now).db.ledger =
      db.ledger ++ [usageLedgerEntry uid .extract] := by
  have hq := quota_consumed_eq uid .extract db row hrow hlt
  have hout : extractPost env true db uid url newId now =
      ⟨.okFull s.id (some lid),
       updateSessionStatus
         { (updateSessionStatus
             (updateSessionStatus
               { db with
                 counters := fupd db.counters uid
                   (setUsed .extract row (usedOf .extract row + 1))
                 ledger := db.ledger ++ [usageLedgerEntry uid .extract] }
               s.id .FETCHED_HTML now)
             s.id .AI_PARSED now) with
           factsRaw := fupd db.factsRaw s.id (mkFactsRow s.id facts) }
         s.id .NEEDS_CONFIRMATION now,
       env.apiKeyPresent⟩ := by
    simp only [extractPost, hq]
    simp [hurl, hai, upsertPropertySession, hfind]
    rfl
  rw [hout]
  refine ⟨rfl, rfl, by simp [updateSessionStatus], ?_, ?_,
          fupd_same _ _ _, rfl⟩
  · have h1 : findSession
        { db with
          counters := fupd db.counters uid
            (setUsed .extract row (usedOf .extract row + 1))
          ledger := db.ledger ++ [usageLedgerEntry uid .extract] }
        s.id = some s := hfid
    have h2 := findSession_updateSessionStatus _ s.id .FETCHED_HTML now s h1
    have h3 := findSession_updateSessionStatus _ s.id .AI_PARSED now _ h2
    have h4 : findSession
        { (updateSessionStatus
            (updateSessionStatus
              { db with
                counters := fupd db.counters uid
                  (setUsed .extract row (usedOf .extract row + 1))
                ledger := db.ledger ++ [usageLedgerEntry uid .extract] }
              s.id .FETCHED_HTML now)
            s.id .AI_PARSED now) with
          factsRaw := fupd db.factsRaw s.id (mkFactsRow s.id facts) }
        s.id =
          some { s with status := LifecycleStage.AI_PARSED, last_extracted_at := some now } := h3
    exact findSession_updateSessionStatus _ s.id .NEEDS_CONFIRMATION now
      { s with status := LifecycleStage.AI_PARSED, last_extracted_at := some now } h4
  · exact fupd_same _ _ _

/-- The already-known session of u8 for listing 170645465. -/
def c8Session : Session :=
  { id := "s8", user_id := "u8"
    rightmove_url := "https://www.rightmove.co.uk/properties/170645465"
    rightmove_listing_id := some "170645465", status := .NEEDS_CONFIRMATION
    last_extracted_at := some "t0" }

/-- One hundred other sessions of u8, so the store sits beyond the cap
threshold. -/
def c8Dummies : List Session :=
  (List.range 100).map (fun i =>
    { id := toString i, user_id := "u8"
      rightmove_url := "https://example.test/old"
      rightmove_listing_id := some (String.append "d" (toString i))
      status := .CREATED, last_extracted_at := none })

/-- Counters for u8 with extract at 1 of 5. -/
def c8Row : UsageCounters :=
  { extract_used := 1, extract_limit := 5, stats_used := 0, stats_limit := 0
    evaluate_used := 0, evaluate_limit := 0 }

/-- A store with 101 sessions of u8 — the known one plus the
dummies. -/
def c8DB : DBState :=
  { emptyDB with
    sessions := c8Session :: c8Dummies
    counters := fupd emptyDB.counters "u8" c8Row }

/-- Witness for C8: although u8 already holds 101 sessions, the re-run
returns the existing row with HTTP 200 (the cap never fires), inserts
nothing, rewrites the raw facts for `s8`, and consumes one more unit of
extract quota. -/
theorem c8_extract_idempotent_witness :
    (extractPost c3Env true c8DB "u8"
        "https://www.rightmove.co.uk/properties/170645465" "n8" "t8").resp =
      .okFull "s8" (some "170645465") ∧
    (extractPost c3Env true c8DB "u8"
        "https://www.rightmove.co.uk/properties/170645465" "n8" "t8").db.sessions.length =
      c8DB.sessions.length ∧
    findSession
      (extractPost c3Env true c8DB "u8"
        "https://www.rightmove.co.uk/properties/170645465" "n8" "t8").db "s8" =
      some { c8Session with status := .NEEDS_CONFIRMATION,
                            last_extracted_at := some "t8" } ∧
    (extractPost c3Env true c8DB "u8"
        "https://www.rightmove.co.uk/properties/170645465" "n8" "t8").db.factsRaw
      "s8" = some (mkFactsRow "s8" noKeyFacts) ∧
    (extractPost c3Env true c8DB "u8"
        "https://www.rightmove.co.uk/properties/170645465" "n8" "t8").db.counters
      "u8" = some (setUsed .extract c8Row (usedOf .extract c8Row + 1)) := by
  have h := c8_extract_idempotent c3Env c8DB "u8"
    "https://www.rightmove.co.uk/properties/170645465" "n8" "t8"
    "170645465" c8Session c8Row noKeyFacts (by decide) (by decide)
    (by decide) (by decide) (by decide) rfl
  exact ⟨h.1, h.2.2.1, h.2.2.2.1, h.2.2.2.2.1, h.2.2.2.2.2.1⟩

/-- Claim C9: two callers racing `guardedTransition` on the same
`(sessionId, fromSet)` serialize at the store as two conditional
updates in some order (the store applies each conditional update
atomically, per the persistent-store contract); in either order the
loser's update matches nothing — the winner has moved every matching
row to a target outside the from-set (the targets are RUNNING states,
which no caller's from-set contains; hypothesis `h1`) — so at most one
call reports success and the status column acts as a per-session
mutex. -/
theorem c9_guarded_race (db : DBState) (sid uid : String)
    (fs : List LifecycleStage) (tgt1 tgt2 : LifecycleStage)
    (h1 : tgt1 ∉ fs) :
    (setStatusGuarded (setStatusGuarded db sid uid fs tgt1).2 sid uid fs
      tgt2).1 = false ∧
    ¬((setStatusGuarded db sid uid fs tgt1).1 = true ∧
      (setStatusGuarded (setStatusGuarded db sid uid fs tgt1).2 sid uid fs
        tgt2).1 = true) := by
  have hfalse : (setStatusGuarded (setStatusGuarded db sid uid fs tgt1).2
      sid uid fs tgt2).1 = false := by
    show ((db.sessions.map _).any (sessionMatches sid uid fs)) = false
    rw [List.any_eq_false]
    intro r hr
    rw [List.mem_map] at hr
    obtain ⟨r0, hr0, hreq⟩ := hr
    by_cases hm : sessionMatches sid uid fs r0 = true
    · rw [if_pos hm] at hreq
      rw [← hreq]
      intro hmat
      exact h1 (of_decide_eq_true hmat).2.2
    · rw [if_neg hm] at hreq
      rw [← hreq]
      exact hm
  exact ⟨hfalse, fun h => by
    rw [hfalse] at h
    exact absurd h.2 (by simp)⟩

/-- Witness for C9: on the concrete store of user u3, the first
transition CREATED → STATS_RUNNING wins and the second call on the same
from-set loses. -/
theorem c9_guarded_race_witness :
    (setStatusGuarded c3DB "s3" "u3" [.CREATED] .STATS_RUNNING).1 = true ∧
    (setStatusGuarded
      (setStatusGuarded c3DB "s3" "u3" [.CREATED] .STATS_RUNNING).2
      "s3" "u3" [.CREATED] .EVAL_RUNNING).1 = false := by
  refine ⟨by decide, ?_⟩
  exact (c9_guarded_race c3DB "s3" "u3" [.CREATED] .STATS_RUNNING
    .EVAL_RUNNING (by decide)).1

/-- Claim C10: the preferences row auto-created on a user's first GET
of /api/preferences sets `work_postcode` to the empty string, and the
compute-stats minimum-preference check rejects an empty
`work_postcode`; hence for a user whose preferences are still the
auto-created defaults, compute-stats (once it reaches the preference
check: caller authenticated, session owned, facts confirmed) always
returns 400 MIN_PREFS_MISSING naming exactly `work_postcode`, before
any status transition, with no quota consumed and no AI call. -/
theorem c10_default_prefs_blocked (env : AIEnv) (db : DBState)
    (uid sid : String) (force : Bool) (now : String) (s : Session)
    (hf : findSession db sid = some s) (huser : s.user_id = uid)
    (hfc : db.factsConfirmed sid = true)
    (hp : db.preferences uid = some defaultPreferences) :
    defaultPreferences.work_postcode = some "" ∧
    checkMinimumPreferences defaultPreferences =
      { ok := false, missing := ["work_postcode"] } ∧
    statsPost env db uid sid force now =
      ⟨.minPrefsMissing ["work_postcode"], db, false⟩ ∧
    StatsResp.httpStatus (.minPrefsMissing ["work_postcode"]) = 400 := by
  have hmin : checkMinimumPreferences defaultPreferences =
      { ok := false, missing := ["work_postcode"] } := by decide
  refine ⟨rfl, hmin, ?_, rfl⟩
  simp only [statsPost, hf]
  simp [huser, hfc, hp, hmin]

/-- A CONFIRMED session of u10 with confirmed facts and the default
preferences row. -/
def c10Session : Session :=
  { id := "s10", user_id := "u10", rightmove_url := "https://example.test/10"
    rightmove_listing_id := some "10", status := .CONFIRMED
    last_extracted_at := none }

/-- The store for the C10 witness. -/
def c10DB : DBState :=
  { emptyDB with
    sessions := [c10Session]
    factsConfirmed := fun sid => sid == "s10"
    preferences := fupd emptyDB.preferences "u10" defaultPreferences }

/-- Witness for C10: on `c10DB` the compute-stats call stops at 400
MIN_PREFS_MISSING naming work_postcode with the store untouched. -/
theorem c10_default_prefs_blocked_witness :
    statsPost c3Env c10DB "u10" "s10" false "t10" =
      ⟨.minPrefsMissing ["work_postcode"], c10DB, false⟩ := by
  exact (c10_default_prefs_blocked c3Env c10DB "u10" "s10" false "t10"
    c10Session (by decide) rfl (by decide) (by decide)).2.2.1

end PropertyMVP
